import Mathlib

/-!
# Statement Field-Extraction Engine — verification development

Shallow embedding of the VAMP repository's statement parser
(`src/utils/statementParser.js`, engine v4) together with the parts of
`src/utils/trendCalculator.js` it calls.  JavaScript strings become `String`
(processed as their character lists), JS numbers become `Nat` for
digit-extracted counts and `ℚ` for dollar amounts and CSV cell sums,
nullable values become `Option`, and each regular expression used by the
source is modelled by an explicit character-list matcher with the same
leftmost-match/backtracking semantics.
-/

namespace VAMP

/-! ## String primitives

All text processing is done on `List Char` so that every definition is
structural recursion and evaluates inside the kernel. -/

abbrev CL := List Char

/-- Character membership in a short exclusion set. -/
def charIn (c : Char) (s : String) : Bool := s.data.contains c

/-- JS character-class `\s` (the source only ever meets ASCII whitespace). -/
def isWs (c : Char) : Bool := c.isWhitespace

/-- JS `s.toLowerCase()` (ASCII, which is all the source ever feeds it). -/
def lowerCL (cs : CL) : CL := cs.map Char.toLower

/-- JS `s.trim()`. -/
def trimCL (cs : CL) : CL :=
  ((cs.dropWhile isWs).reverse.dropWhile isWs).reverse

/-- Boolean substring test on character lists. -/
def infixB (needle : CL) : CL → Bool
  | [] => needle.isEmpty
  | c :: rest => needle.isPrefixOf (c :: rest) || infixB needle rest

/-- JS `haystack.includes(needle)`. -/
def containsCL (haystack : CL) (needle : String) : Bool :=
  infixB needle.data haystack

/-- JS `s.startsWith(p)`. -/
def startsCL (s : CL) (p : String) : Bool := p.data.isPrefixOf s

/-- The `lower` variable every extractor loop computes from a raw line:
`line.toLowerCase().trim()`. -/
def lowerLine (line : String) : CL := trimCL (lowerCL line.data)

/-- Split at every whitespace character (the consumers only ever look at
the digit-only pieces, so the empty pieces a JS `split(/\s+/)` would merge
away are irrelevant). -/
def splitWsAux : CL → CL → List CL
  | [], acc => [acc.reverse]
  | c :: rest, acc =>
    if isWs c then acc.reverse :: splitWsAux rest []
    else splitWsAux rest (c :: acc)

def splitWs (cs : CL) : List CL := splitWsAux cs []

/-- Digits of a numeral string folded to a `Nat`
(JS `parseInt(clean, 10)` on an all-digit string). -/
def digitsToNat (cs : CL) : Nat :=
  cs.foldl (fun acc c => 10 * acc + (c.toNat - '0'.toNat)) 0

/-- A "word" character for JS regex `\b` boundaries: `[A-Za-z0-9_]`. -/
def isWordChar (c : Char) : Bool :=
  c.isAlpha || c.isDigit || c = '_'

/-- `/^w\b/` applied to an already-trimmed lower-cased string `s` (used for
`/^\s*total\b/i` and friends): `w` is a prefix of `s` and the next
character, if any, is not a word character. -/
def startsWithWordBound (s : CL) (w : String) : Bool :=
  w.data.isPrefixOf s &&
    match (s.drop w.data.length).head? with
    | none => true
    | some c => !isWordChar c

/-! ## Numeric/line primitives (`firstInt`, `firstDollar`) -/

/-- `firstInt` — first whitespace-separated token that, after stripping
`$`, `,`, `(`, `)`, is 1–8 digits; that token's numeric value.  Mirrors

```js
const parts = line.split(/\s+/);
for (const p of parts) {
  const clean = p.replace(/[$,()]/g, '');
  if (/^\d{1,8}$/.test(clean)) return parseInt(clean, 10);
}
return null;
```
-/
def firstInt (line : String) : Option Nat :=
  (splitWs line.data).findSome? fun p =>
    let clean := p.filter (fun c => !charIn c "$,()")
    if clean.all Char.isDigit && 1 ≤ clean.length && clean.length ≤ 8 then
      some (digitsToNat clean)
    else none

/-- Leftmost match of `[\d,]+\.\d{2}` on a character list: the maximal
digit/comma run starting here, immediately followed by `.` and two digits.
Returns the run (digits and commas) together with the two decimal digits.
Because the run characters can never satisfy the following literal `.`,
only the full run needs to be tried at each start position, which is
exactly what the JS backtracking engine ends up doing. -/
def dollarScan : CL → Option (CL × Char × Char)
  | [] => none
  | c :: rest =>
    let run := (c :: rest).takeWhile (fun x => x.isDigit || x = ',')
    match (c :: rest).drop run.length with
    | '.' :: d1 :: d2 :: _ =>
      if !run.isEmpty && d1.isDigit && d2.isDigit then some (run, d1, d2)
      else dollarScan rest
    | _ => dollarScan rest

/-- `firstDollar` — first decimal amount `[\d,]+\.\d{2}` in the line, with
commas removed before conversion; mirrors

```js
const m = line.match(/\$?\s*([\d,]+\.\d{2})/);
if (!m) return null;
const n = parseFloat(m[1].replace(/,/g, ''));
return isNaN(n) ? null : n;
```

The optional `\$?\s*` prefix never changes which group the JS engine
captures (the group starts with a digit or comma, so the leftmost group
occurrence is the capture either way), and the captured text always
parses, so the `isNaN` branch is dead.

Since a match always has exactly two decimal digits, the JS number is an
exact multiple of 1/100; the engine's internal computation is carried in
cents (`firstDollarC`) and converted by `centsQ`, which keeps the state
machines inside decidable arithmetic. -/
def firstDollarC (line : String) : Option Nat :=
  match dollarScan line.data with
  | none => none
  | some (run, d1, d2) =>
    let intPart : Nat := digitsToNat (run.filter Char.isDigit)
    let frac : Nat := 10 * (d1.toNat - '0'.toNat) + (d2.toNat - '0'.toNat)
    some (100 * intPart + frac)

/-- Dollars (a JS float that is an exact multiple of 1/100) from cents. -/
def centsQ (c : Nat) : ℚ := (c : ℚ) / 100

/-- The JS value `firstDollar(line)` returns. -/
def firstDollar (line : String) : Option ℚ :=
  (firstDollarC line).map centsQ

/-! ## Hand-compiled regular expressions

Each matcher mirrors one regex literal of the source, with the JS engine's
leftmost-match and greedy/backtracking behaviour compiled away by hand
(the only backtracking any of these regexes can do collapses to "take the
maximal run", because the character following a `+`/`{m,n}` class is never
itself in the class). -/

/-- `/page\s+\d+/i.test(lower)` — somewhere in the (already lower-cased)
string: `page`, at least one whitespace, a digit. -/
def pageNumTest : CL → Bool
  | [] => false
  | c :: rest =>
    (if "page".data.isPrefixOf (c :: rest) then
      let after := (c :: rest).drop 4
      let ws := after.takeWhile isWs
      match (after.drop ws.length).head? with
      | some d => !ws.isEmpty && d.isDigit
      | none => false
    else false) || pageNumTest rest

/-- `/^w1\s+w2\b/` on an already-trimmed lower-cased string: `w1`, at least
one whitespace, `w2`, word boundary (used for `MC TOTAL` / `VISA TOTAL`
style rows). -/
def startsWsWordBound (s : CL) (w1 w2 : String) : Bool :=
  w1.data.isPrefixOf s &&
    (let after := s.drop w1.data.length
     let ws := after.takeWhile isWs
     !ws.isEmpty && startsWithWordBound (after.drop ws.length) w2)

/-- `/^total\s+(?:a|b)\b/` — `total`, whitespace, one of the alternatives,
word boundary (the alternatives the source uses are never prefixes of one
another, so "first alternative wins" is the same as "any"). -/
def startsTotalAlt (s : CL) (alts : List String) : Bool :=
  "total".data.isPrefixOf s &&
    (let after := s.drop 5
     let ws := after.takeWhile isWs
     !ws.isEmpty && alts.any (startsWithWordBound (after.drop ws.length)))

/-- `/^sales\s/.test(lower)` — `sales` followed by a whitespace char. -/
def startsSalesWs (s : CL) : Bool :=
  "sales".data.isPrefixOf s &&
    match (s.drop 5).head? with
    | some c => isWs c
    | none => false

/-- One attempt of `/(\d{1,6})\s+TRANS(?:ACTIONS?)?\s+AT\s+/i` anchored at
the head of `s` (already lower-cased).  The digit run must be 1–6 digits
(a longer run leaves a digit where `\s+` is required), then whitespace,
`trans` optionally extended by `action`/`actions` (tried greedily, exactly
as the JS engine backtracks), whitespace, `at`, whitespace. -/
def txnPatternAt (s : CL) : Option Nat :=
  let ds := s.takeWhile Char.isDigit
  if ds.isEmpty || ds.length > 6 then none
  else
    let r1 := s.drop ds.length
    let ws1 := r1.takeWhile isWs
    if ws1.isEmpty then none
    else
      let r2 := r1.drop ws1.length
      if "trans".data.isPrefixOf r2 then
        let r3 := r2.drop 5
        let attempt := fun (alt : String) =>
          if alt.data.isPrefixOf r3 then
            let r4 := r3.drop alt.data.length
            let ws2 := r4.takeWhile isWs
            if ws2.isEmpty then false
            else
              let r5 := r4.drop ws2.length
              "at".data.isPrefixOf r5 &&
                match (r5.drop 2).head? with
                | some c => isWs c
                | none => false
          else false
        if attempt "actions" || attempt "action" || attempt "" then
          some (digitsToNat ds)
        else none
      else none

/-- Leftmost match of the interchange transaction-count pattern
(`line.match(txnPattern)`, case-insensitive, so the scan runs on the
lower-cased line); returns the captured count. -/
def txnPatternCount (line : String) : Option Nat :=
  go (lowerCL line.data)
where
  go : CL → Option Nat
    | [] => none
    | c :: rest =>
      match txnPatternAt (c :: rest) with
      | some n => some n
      | none => go rest

/-! ## Statement-period extraction (`extractPeriodFromLine`) -/

/-- Long month names as `toLocaleDateString('en-US', { month: 'long' })`
produces them, index 0–11. -/
def MONTHS_LONG : List String :=
  ["January", "February", "March", "April", "May", "June", "July",
   "August", "September", "October", "November", "December"]

/-- Gregorian leap year, as the JS `Date` normalizes overflowing days. -/
def isLeap (y : Int) : Bool :=
  y % 4 = 0 && (y % 100 ≠ 0 || y % 400 = 0)

/-- Days in month `m` (0–11) of year `y`. -/
def daysInMonth (y : Int) (m : Nat) : Nat :=
  if m = 1 then (if isLeap y then 29 else 28)
  else if m = 3 || m = 5 || m = 8 || m = 10 then 30
  else 31

/-- Roll an out-of-range day-of-month into the correct month, as
`new Date(y, m, d)` does (day 0 is the last day of the previous month,
day 32 of January is February 1, …).  `d` is at most two digits, so the
fuel bound of 8 month steps is never exhausted. -/
def rollDay : Nat → Int → Nat → Int → Int × Nat
  | 0, y, m, _ => (y, m)
  | fuel + 1, y, m, d =>
    if d < 1 then
      let y' := if m = 0 then y - 1 else y
      let m' := if m = 0 then 11 else m - 1
      rollDay fuel y' m' (d + daysInMonth y' m')
    else if d > (daysInMonth y m : Int) then
      let y' := if m = 11 then y + 1 else y
      let m' := if m = 11 then 0 else m + 1
      rollDay fuel y' m' (d - daysInMonth y m)
    else (y, m)

/-- Decimal digits of a `Nat` (every year the model meets is 4 digits or
fewer plus carries, so 8 digits of fuel always suffice). -/
def natDigitsAux : Nat → Nat → CL
  | 0, _ => []
  | fuel + 1, n =>
    if n = 0 then []
    else natDigitsAux fuel (n / 10) ++ [Char.ofNat ('0'.toNat + n % 10)]

def natToString (n : Nat) : String :=
  if n = 0 then "0" else ⟨natDigitsAux 8 n⟩

def intToString (i : Int) : String :=
  if i < 0 then "-" ++ natToString i.natAbs else natToString i.toNat

/-- `new Date(year, monthIndex, day)` normalization: two-digit years map
into the 1900s (a JS `Date` constructor quirk), months overflow into
years, days overflow into months; then format as
`toLocaleDateString('en-US', { month: 'long', year: 'numeric' })`, i.e.
`"January 2026"`.  The `isNaN(d.getTime())` guard of the source can only
fire hundreds of millennia away from the values a 4-digit year can
produce, so it is dead here. -/
def jsDateMonthYear (year month day : Int) : String :=
  let year := if 0 ≤ year && year ≤ 99 then year + 1900 else year
  let t := 12 * year + month
  let y0 := t.fdiv 12
  let m0 := (t.emod 12).toNat
  let (y1, m1) := rollDay 8 y0 m0 day
  (MONTHS_LONG.getD m1 "") ++ " " ++ intToString y1

/-- `\d{1,2}` followed by a literal `/`: the digit run must have length 1
or 2 (a longer run blocks the `/` in every backtracking branch).  Returns
the digits and the remainder after the slash. -/
def dateField2 (s : CL) : Option (CL × CL) :=
  let ds := s.takeWhile Char.isDigit
  if 1 ≤ ds.length && ds.length ≤ 2 then
    match s.drop ds.length with
    | '/' :: rest => some (ds, rest)
    | _ => none
  else none

/-- One attempt of `\d{1,2}\/\d{1,2}\/\d{4}` anchored at `s`; returns
month digits, day digits, year digits (exactly 4), and the remainder. -/
def dateAt (s : CL) : Option (CL × CL × CL × CL) :=
  match dateField2 s with
  | none => none
  | some (m, rest1) =>
    match dateField2 rest1 with
    | none => none
    | some (d, rest2) =>
      let ys := rest2.takeWhile Char.isDigit
      if ys.length < 4 then none
      else some (m, d, ys.take 4, rest2.drop 4)

/-- One attempt of the full date-range pattern
`/(\d{1,2}\/\d{1,2}\/\d{4})\s+(?:THROUGH|TO)\s+(\d{1,2}\/\d{1,2}\/\d{4})/i`
anchored at the head of the lower-cased line.  The first year must be
exactly 4 digits (a fifth digit blocks the following `\s+`); the keyword
alternatives are tried in order `through`, `to`.  Returns the second
date's `(month, day, year)` digit groups — the source only uses capture
group 2. -/
def rangeAt (s : CL) : Option (CL × CL × CL) :=
  match dateAt s with
  | none => none
  | some (_, _, _, rest) =>
      match rest.head? with
      | some c =>
        if c.isDigit then none
        else
          let ws1 := rest.takeWhile isWs
          if ws1.isEmpty then none
          else
            let r1 := rest.drop ws1.length
            let kw :=
              if "through".data.isPrefixOf r1 then some 7
              else if "to".data.isPrefixOf r1 then some 2
              else none
            match kw with
            | none => none
            | some k =>
              let r2 := r1.drop k
              let ws2 := r2.takeWhile isWs
              if ws2.isEmpty then none
              else
                match dateAt (r2.drop ws2.length) with
                | some (m2, d2, y2, _) => some (m2, d2, y2)
                | none => none
      | none => none

/-- Leftmost date-range match over the whole line. -/
def rangeScan : CL → Option (CL × CL × CL)
  | [] => none
  | c :: rest =>
    match rangeAt (c :: rest) with
    | some r => some r
    | none => rangeScan rest

/-- One attempt of
`/\b(January|…|December)\s+(20\d{2})\b/i` anchored at the head of the
lower-cased residue; `prevWordChar` says whether the character before the
current position is a word character (for the leading `\b`).  Returns the
matched month's index and the two trailing year digits. -/
def monthYearAt (prevWordChar : Bool) (s : CL) : Option (Nat × Nat) :=
  if prevWordChar then none
  else
    (List.range 12).findSome? fun idx =>
      let name := (MONTHS_LONG.getD idx "").data.map Char.toLower
      if name.isPrefixOf s then
        let r1 := s.drop name.length
        let ws := r1.takeWhile isWs
        if ws.isEmpty then none
        else
          match r1.drop ws.length with
          | '2' :: '0' :: d1 :: d2 :: rest =>
            if d1.isDigit && d2.isDigit &&
                (match rest.head? with
                 | some c => !isWordChar c
                 | none => true) then
              some (idx, 10 * (d1.toNat - '0'.toNat) + (d2.toNat - '0'.toNat))
            else none
          | _ => none
      else none

/-- Leftmost month-name match over the lower-cased line. -/
def monthYearScan (prev : Bool) : CL → Option (Nat × Nat)
  | [] => none
  | c :: rest =>
    match monthYearAt prev (c :: rest) with
    | some r => some r
    | none => monthYearScan (isWordChar c) rest

/-- `extractPeriodFromLine` — date-range pattern first (format the END
date), then month-name + 4-digit-year (year ≥ 2020, which for `20\d{2}`
means trailing digits ≥ 20).  Mirrors the source exactly, including that
a month-name match with year < 2020 returns `null` without rescanning. -/
def extractPeriodFromLine (line : String) : Option String :=
  let low := lowerCL line.data
  match rangeScan low with
  | some (m, d, y) =>
    some (jsDateMonthYear (digitsToNat y) ((digitsToNat m : Int) - 1) (digitsToNat d))
  | none =>
    match monthYearScan false low with
    | some (idx, dd) =>
      if 20 ≤ dd then
        some ((MONTHS_LONG.getD idx "") ++ " 20" ++
          ⟨[Char.ofNat ('0'.toNat + dd / 10), Char.ofNat ('0'.toNat + dd % 10)]⟩)
      else none
    | none => none

/-! ## First Data / ServeFirst field extraction -/

def GROSS_LABELS : List String :=
  ["total amount submitted", "total gross sales you submitted",
   "gross sales you submitted", "total sales submitted", "total submitted"]

def NO_CB_PHRASES : List String :=
  ["no chargebacks/reversals for this statement period",
   "no chargeback/reversal for this statement period",
   "no chargebacks for this statement period",
   "no chargebacks"]

def CARD_TYPE_PREFIXES : List String :=
  ["visa", "mastercard", "master card", "mc ", "discover", "american express",
   "amex", "jcb", "diners", "debit", "pin debit", "fleet", "voyager",
   "wright express", "wex", "check", "ach"]

def NETWORK_FEE_KEYWORDS : List String :=
  ["ntwk", "network access", "pre-auth fee", "acquirer processing",
   "auth fee", "assessment", "brand fee", "digital enablement", "kilobyte",
   "service fee", "zero floor", "misuse", "licence fee"]

/-- Mutable locals of the `parseFirstDataFields` loop.  Dollar amounts are
carried in cents. -/
structure FDState where
  grossVolume : Option Nat := none
  salesCount : Option Nat := none
  chargebackCount : Option Nat := none
  statementPeriod : Option String := none
  mcCardSum : Nat := 0
  visaCardSum : Nat := 0
  mcCardFound : Bool := false
  visaCardFound : Bool := false
  mcInterchangeTotal : Option Nat := none
  mcInterchangeSum : Nat := 0
  vsInterchangeTotal : Option Nat := none
  vsInterchangeSum : Nat := 0
  inCardTypeSection : Bool := false
  inInterchangeSection : Bool := false
  cardSectionItemSum : Nat := 0
  cardSectionRowsFound : Nat := 0
  cbSectionFound : Bool := false
  deriving Repr, DecidableEq

/-- Loop block 1 — gross volume: on a label line, the first dollar amount
on this line or the next two; only a positive amount resolves. -/
def fdGrossStep (gross : Option Nat) (line : String) (n1 n2 : Option String) :
    Option Nat :=
  if gross = none && GROSS_LABELS.any (containsCL (lowerLine line)) then
    let v0 := firstDollarC line
    let v1 := match v0 with
      | some v => some v
      | none => match n1 with
        | some l1 => firstDollarC l1
        | none => none
    let v2 := match v1 with
      | some v => some v
      | none => match n2 with
        | some l2 => firstDollarC l2
        | none => none
    match v2 with
    | some v => if 0 < v then some v else gross
    | none => gross
  else gross

/-- Loop blocks 2–4 — chargeback count: the "no chargebacks" phrase, the
`Chargebacks/Reversals` summary line (a `$0.00` amount means zero; no
amount at all falls back to the first integer), and the
`Total Chargebacks N` row.  Each block re-checks that the count is still
unresolved, exactly as the three separate `if`s of the source do. -/
def fdCbStep (st : Option Nat × Bool) (line : String) : Option Nat × Bool :=
  let lower := lowerLine line
  let (cb, found) := st
  -- block 2: "No Chargebacks" phrase
  let cb :=
    if cb = none && NO_CB_PHRASES.any (containsCL lower) then some 0 else cb
  -- block 3: page-1 "Chargebacks/Reversals" line
  let (cb, found) :=
    if cb = none && containsCL lower "chargeback" && containsCL lower "reversal" then
      (match firstDollarC line with
       | some 0 => some 0
       | some _ => none
       | none => firstInt line,
       true)
    else (cb, found)
  -- block 4: "Total Chargebacks N" row
  let cb :=
    if cb = none && startsCL lower "total chargeback" &&
        !containsCL lower "amount" then
      firstInt line
    else cb
  (cb, found)

/-- The section machinery of the `parseFirstDataFields` loop body
(everything from the `Summary By Card Type` boundary check on).  It reads
and writes only the section locals (`salesCount`, the card/interchange
sums, flags and totals) — the period/gross/chargeback locals its input
carries are untouched. -/
def fdSectionStep (st : FDState) (line : String) : FDState :=
  let lower := lowerLine line
  -- section boundary: Summary By Card Type start (`continue`s)
  if containsCL lower "summary by card type" ||
      containsCL lower "card type summary" then
    { st with inCardTypeSection := true, inInterchangeSection := false,
              cardSectionItemSum := 0, cardSectionRowsFound := 0,
              mcCardSum := 0, visaCardSum := 0,
              mcCardFound := false, visaCardFound := false,
              salesCount := none }
  else
    -- section boundary: interchange / fee detail start
    let st :=
      if !st.inCardTypeSection &&
          (containsCL lower "interchange" ||
           lower = "fee detail".data || lower = "fee summary".data ||
           startsCL lower "fee detail" || startsCL lower "fee summary") then
        { st with inInterchangeSection := true }
      else st
    -- card-type section rows
    let (st, continued) :=
      if st.inCardTypeSection then
        let sectionEnds :=
          containsCL lower "summary by day" ||
          containsCL lower "summary by batch" ||
          containsCL lower "adjustment detail" ||
          containsCL lower "fee detail" ||
          containsCL lower "chargeback detail" ||
          (startsCL lower "page " && pageNumTest lower)
        if sectionEnds then
          -- the ending keyword may also open the interchange section;
          -- fall through so the interchange block still sees this line
          ({ st with inCardTypeSection := false,
                     inInterchangeSection :=
                       if containsCL lower "fee detail" ||
                           containsCL lower "interchange" then true
                       else st.inInterchangeSection }, false)
        else if containsCL lower "items" || containsCL lower "net amount" ||
            containsCL lower "submitted" || containsCL lower "reversals" then
          (st, true)  -- column-header row
        else if startsCL lower "adjustment" || containsCL lower "adjustment" then
          (st, true)  -- adjustments row
        else if startsWithWordBound lower "total" &&
            !containsCL lower "amount" && !containsCL lower "gross" &&
            !containsCL lower "submitted" then
          (match firstInt line with
           | some c =>
             if 0 < c then
               { st with salesCount := some c, inCardTypeSection := false }
             else st
           | none => st, true)
        else if CARD_TYPE_PREFIXES.any (startsCL lower) then
          (match firstInt line with
           | some c =>
             if 0 < c then
               let isMC := startsCL lower "mastercard" ||
                 startsCL lower "master card" ||
                 (startsCL lower "mc" && !startsCL lower "misc")
               let isVisa := startsCL lower "visa"
               { st with
                 cardSectionItemSum := st.cardSectionItemSum + c,
                 cardSectionRowsFound := st.cardSectionRowsFound + 1,
                 mcCardSum := if isMC then st.mcCardSum + c else st.mcCardSum,
                 mcCardFound := if isMC then true else st.mcCardFound,
                 visaCardSum := if isVisa then st.visaCardSum + c else st.visaCardSum,
                 visaCardFound := if isVisa then true else st.visaCardFound }
             else st
           | none => st, true)
        else (st, true)
      else (st, false)
    if continued then st
    else if st.inInterchangeSection then
      let sectionEnds :=
        containsCL lower "chargeback detail" ||
        containsCL lower "discount summary" ||
        containsCL lower "summary by day" ||
        (startsCL lower "page " && pageNumTest lower)
      if sectionEnds then { st with inInterchangeSection := false }
      else
        let st :=
          if st.mcInterchangeTotal = none &&
              (startsWsWordBound lower "mc" "total" ||
               startsWsWordBound lower "mastercard" "total" ||
               startsTotalAlt lower ["mc", "mastercard"]) then
            match firstInt line with
            | some c => if 0 < c then { st with mcInterchangeTotal := some c } else st
            | none => st
          else st
        let st :=
          if st.vsInterchangeTotal = none &&
              (startsWsWordBound lower "vs" "total" ||
               startsWsWordBound lower "visa" "total" ||
               startsTotalAlt lower ["vs", "visa"]) then
            match firstInt line with
            | some c => if 0 < c then { st with vsInterchangeTotal := some c } else st
            | none => st
          else st
        let isMCLine := startsCL lower "mc" || startsCL lower "mastercard"
        let st :=
          if isMCLine && !NETWORK_FEE_KEYWORDS.any (containsCL lower) then
            match txnPatternCount line with
            | some n => { st with mcInterchangeSum := st.mcInterchangeSum + n }
            | none => st
          else st
        let isVSLine := startsCL lower "vs " || startsCL lower "vs-" ||
          (startsCL lower "visa" && !startsCL lower "visa debit")
        if isVSLine && !NETWORK_FEE_KEYWORDS.any (containsCL lower) then
          match txnPatternCount line with
          | some n => { st with vsInterchangeSum := st.vsInterchangeSum + n }
          | none => st
        else st
    else st

/-- One iteration of the `parseFirstDataFields` loop, with `n1`/`n2` the
two lookahead lines (`lines[i+1]`, `lines[i+2]`).  The loop body's blocks
are pairwise independent — blocks 0–4 read and write only the period,
gross-volume and chargeback locals, the section machinery only the
section locals — so the iteration is their simultaneous assembly. -/
def fdStep (st : FDState) (line : String) (n1 n2 : Option String) : FDState :=
  let cb := fdCbStep (st.chargebackCount, st.cbSectionFound) line
  { fdSectionStep st line with
    statementPeriod :=
      match st.statementPeriod with
      | some p => some p
      | none => extractPeriodFromLine line,
    grossVolume := fdGrossStep st.grossVolume line n1 n2,
    chargebackCount := cb.1,
    cbSectionFound := cb.2 }

/-- The `parseFirstDataFields` loop over all lines. -/
def fdGo (st : FDState) : List String → FDState
  | [] => st
  | l :: rest => fdGo (fdStep st l rest.head? (rest.drop 1).head?) rest

/-- The canonical field payload (`result.data`) of the PDF extractors.
Counts are naturals (they come from digit-only tokens), dollar volumes
are rationals. -/
structure PDFData where
  totalSalesCount : Option Nat
  totalSalesVolume : Option ℚ
  cnpTxnCount : Option Nat
  mastercardTxnCount : Option Nat
  visaTxnCount : Option Nat
  tc15Count : Option Nat
  tc40Count : Option Nat
  fraudAmountUSD : Option ℚ
  statementPeriod : Option String
  deriving Repr, DecidableEq

/-- A dialect extractor's result: `data` (null when nothing at all was
extracted) and the accumulated warnings. -/
structure ExtractResult where
  data : Option PDFData
  warnings : List String
  deriving Repr, DecidableEq

/-- Mastercard count, strategy priority 1 (card-type table) > 2 (brand
total row) > 3 (summed category lines); the fallbacks carry warnings. -/
def fdMCResolve (st : FDState) : Option Nat × List String :=
  if st.mcCardFound && 0 < st.mcCardSum then (some st.mcCardSum, ([] : List String))
  else match st.mcInterchangeTotal with
    | some t => (some t, ["Mastercard count taken from interchange section total row."])
    | none =>
      if 0 < st.mcInterchangeSum then
        (some st.mcInterchangeSum,
         ["Mastercard transaction count estimated from interchange category lines — verify against statement."])
      else (none, [])

/-- Visa count, same three-strategy priority. -/
def fdVisaResolve (st : FDState) : Option Nat × List String :=
  if st.visaCardFound && 0 < st.visaCardSum then (some st.visaCardSum, ([] : List String))
  else match st.vsInterchangeTotal with
    | some t => (some t, ["Visa count taken from interchange section total row."])
    | none =>
      if 0 < st.vsInterchangeSum then
        (some st.vsInterchangeSum,
         ["Visa transaction count estimated from interchange category lines — verify against statement."])
      else (none, [])

/-- Sales count before the brand fallback: authoritative Total row, then
the summed card rows. -/
def fdSales0 (st : FDState) : Option Nat :=
  match st.salesCount with
  | some c => some c
  | none => if 0 < st.cardSectionRowsFound then some st.cardSectionItemSum else none

/-- Sales count with the MC+Visa interchange-total fallback. -/
def fdSalesResolve (st : FDState) : Option Nat × List String :=
  match fdSales0 st with
  | some c => (some c, ([] : List String))
  | none =>
    let brandTotal := ((fdMCResolve st).1.getD 0) + ((fdVisaResolve st).1.getD 0)
    if 0 < brandTotal then
      (some brandTotal,
       ["Total transaction count approximated from Mastercard + Visa interchange totals — may exclude Discover/AMEX and other card types. Verify if you process multiple brands."])
    else (none, [])

/-- Chargeback count: never left null — defaulting to 0 warns. -/
def fdCbResolve (st : FDState) : Nat × List String :=
  match st.chargebackCount with
  | some c => (c, ([] : List String))
  | none =>
    (0,
     [if st.cbSectionFound then
        "Chargeback section found but count could not be extracted. Defaulted to 0 — please verify."
      else "Chargeback section not found in PDF. Defaulted to 0."])

/-- Post-loop resolution of `parseFirstDataFields` given the final loop
state: sales count falls back to the summed card rows, per-brand counts
run their three-strategy priority, total sales falls back to MC+Visa,
the chargeback count is defaulted to 0 (never null), and the fixed
warnings are appended in source order. -/
def fdResolve (st : FDState) : ExtractResult :=
  let (mastercardTxnCount, wMC) := fdMCResolve st
  let (visaTxnCount, wVS) := fdVisaResolve st
  let (salesCount, wCNP) := fdSalesResolve st
  let (chargebackCount, wCB) := fdCbResolve st
  let wGross :=
    if st.grossVolume = none then
      ["\"Total Amount Submitted\" not found in PDF. Please enter Gross Volume manually."]
    else []
  let wSales :=
    if salesCount = none then
      ["\"Summary By Card Type\" Items column not found. Please enter Sales Count manually."]
    else []
  let wMCNull :=
    if mastercardTxnCount = none then
      ["Mastercard transaction count not found in PDF. Enter it manually for a precise ECP calculation."]
    else []
  let warnings := wMC ++ wVS ++ wCNP ++ wCB ++ wGross ++ wSales ++ wMCNull
  let anyExtracted := !(st.grossVolume = none) || !(salesCount = none)
  { data :=
      if anyExtracted then
        some { totalSalesCount := salesCount,
               totalSalesVolume := st.grossVolume.map centsQ,
               cnpTxnCount := salesCount,  -- total as CNP proxy
               mastercardTxnCount := mastercardTxnCount,
               visaTxnCount := visaTxnCount,
               tc15Count := some chargebackCount,
               tc40Count := some 0,  -- constant, not in First Data statements
               fraudAmountUSD := none,
               statementPeriod := st.statementPeriod }
      else none,
    warnings := warnings }

/-- `parseFirstDataFields` — First Data / ServeFirst dialect extractor. -/
def parseFirstDataFields (lines : List String) : ExtractResult :=
  fdResolve (fdGo {} lines)

/-! ## Chase Merchant Services / Paymentech field extraction -/

def CHASE_GROSS_LABELS : List String :=
  ["gross sales", "total gross sales", "total sales", "total gross",
   "gross amount", "total processed volume", "total processing volume",
   "total amount processed", "sales volume", "gross volume", "net sales"]

def CHASE_COUNT_LABELS : List String :=
  ["total transactions", "total items", "total transaction count",
   "number of transactions", "transaction count"]

/-- Mutable locals of the `parseChaseFields` loop (dollars in cents). -/
structure ChaseState where
  grossVolume : Option Nat := none
  salesCount : Option Nat := none
  chargebackCount : Option Nat := none
  statementPeriod : Option String := none
  mcCardSum : Nat := 0
  visaCardSum : Nat := 0
  mcCardFound : Bool := false
  visaCardFound : Bool := false
  inCardSection : Bool := false
  inSummarySection : Bool := false
  cbSectionFound : Bool := false
  cardSectionTotal : Nat := 0
  deriving Repr, DecidableEq

/-- The chase column-header row regex
`/^\s*(count|amount|transactions|items|card type|type)\s*$/i`: on an
already-trimmed, lower-cased line this is exact equality with one of the
six words. -/
def chaseHeaderRow (lower : CL) : Bool :=
  ["count", "amount", "transactions", "items", "card type", "type"].any
    (fun w => lower = w.data)

/-- Block 2 of the `parseChaseFields` loop body: gross volume from a
labelled line (one lookahead line). -/
def chaseGrossLabelBlock (gross : Option Nat) (line : String)
    (n1 : Option String) : Option Nat :=
  let lower := lowerLine line
  if gross = none && CHASE_GROSS_LABELS.any (containsCL lower) then
    let v := match firstDollarC line with
      | some v => some v
      | none => match n1 with
        | some l1 => firstDollarC l1
        | none => none
    match v with
    | some v => if 0 < v then some v else gross
    | none => gross
  else gross

/-- Block 4 of the `parseChaseFields` loop body: the "Sales"
activity-summary row (count + amount, with up to two lookahead lines when
the layout splits them). -/
def chaseSalesRowBlock (gs : Option Nat × Option Nat) (line : String)
    (n1 n2 : Option String) : Option Nat × Option Nat :=
  let lower := lowerLine line
  let (gross, sales) := gs
  if gross = none &&
      (lower = "sales".data || startsSalesWs lower) &&
      !containsCL lower "gross" && !containsCL lower "net" &&
      !containsCL lower "card" && !containsCL lower "by" then
    let v0 := firstDollarC line
    let c0 := firstInt line
    let (v1, c1) :=
      if v0 = none then
        match n1 with
        | some l1 =>
          (firstDollarC l1,
           match c0 with | some c => some c | none => firstInt l1)
        | none => (v0, c0)
      else (v0, c0)
    let (v2, c2) :=
      if v1 = none then
        match n2 with
        | some l2 =>
          (firstDollarC l2,
           match c1 with | some c => some c | none => firstInt l2)
        | none => (v1, c1)
      else (v1, c1)
    match v2 with
    | some v =>
      if 0 < v then
        (some v,
         match c2 with
         | some c => if 0 < c && sales = none then some c else sales
         | none => sales)
      else (gross, sales)
    | none => (gross, sales)
  else (gross, sales)

/-- Block 5 of the `parseChaseFields` loop body: explicit
transaction-count labels (one lookahead line). -/
def chaseCountLabelBlock (sales : Option Nat) (line : String)
    (n1 : Option String) : Option Nat :=
  let lower := lowerLine line
  if sales = none && CHASE_COUNT_LABELS.any (containsCL lower) then
    let c := match firstInt line with
      | some c => some c
      | none => match n1 with
        | some l1 => firstInt l1
        | none => none
    match c with
    | some c => if 0 < c then some c else sales
    | none => sales
  else sales

/-- Blocks 2, 4 and 5 of the `parseChaseFields` loop body in source
order: the gross volume and sales count, which these three blocks read
and write jointly. -/
def chaseGSStep (gs : Option Nat × Option Nat) (line : String)
    (n1 n2 : Option String) : Option Nat × Option Nat :=
  let g1 := chaseGrossLabelBlock gs.1 line n1
  let gs2 := chaseSalesRowBlock (g1, gs.2) line n1 n2
  (gs2.1, chaseCountLabelBlock gs2.2 line n1)

/-- Blocks 3 and 6 of the `parseChaseFields` loop body: the chargeback
count ("no chargebacks" phrase, then the `Chargebacks` row whose count
may be on the line, implied by a `$0.00` amount, or on the next line). -/
def chaseCbStep (cbp : Option Nat × Bool) (line : String)
    (n1 : Option String) : Option Nat × Bool :=
  let lower := lowerLine line
  let (cb, found) := cbp
  -- block 3: "No Chargebacks" phrase
  let cb :=
    if cb = none && NO_CB_PHRASES.any (containsCL lower) then some 0 else cb
  -- block 6: chargebacks row
  if cb = none && containsCL lower "chargeback" then
    (match firstInt line with
     | some c => some c
     | none =>
       if firstDollarC line = some 0 then some 0
       else
         match n1 with
         | some l1 =>
           match firstInt l1 with
           | some c => some c
           | none => none
         | none => none,
     true)
  else (cb, found)

/-- Block 7 of the `parseChaseFields` loop body: card-type section rows.
Reads and writes only the section locals and the sales count. -/
def chaseCardSectionStep (st : ChaseState) (line : String) : ChaseState :=
  let lower := lowerLine line
  if st.inCardSection then
    let sectionEnds :=
      containsCL lower "fee detail" || containsCL lower "discount detail" ||
      containsCL lower "interchange detail" ||
      containsCL lower "summary by batch" ||
      containsCL lower "adjustment detail" ||
      (startsCL lower "page " && pageNumTest lower)
    if sectionEnds then { st with inCardSection := false }
    else if chaseHeaderRow lower then st
    else if startsWithWordBound lower "total" then
      match firstInt line with
      | some c =>
        if 0 < c && st.salesCount = none then
          { st with salesCount := some c, inCardSection := false }
        else { st with inCardSection := false }
      | none => { st with inCardSection := false }
    else
      let isMC := startsCL lower "mastercard" || startsCL lower "master card" ||
        (startsCL lower "mc" && !startsCL lower "misc")
      let isVisa := startsCL lower "visa"
      if isMC || isVisa || CARD_TYPE_PREFIXES.any (startsCL lower) then
        match firstInt line with
        | some c =>
          if 0 < c then
            { st with cardSectionTotal := st.cardSectionTotal + c,
                      mcCardSum := if isMC then st.mcCardSum + c else st.mcCardSum,
                      mcCardFound := if isMC then true else st.mcCardFound,
                      visaCardSum := if isVisa then st.visaCardSum + c else st.visaCardSum,
                      visaCardFound := if isVisa then true else st.visaCardFound }
          else st
        | none => st
      else st
  else st

/-- One iteration of the `parseChaseFields` loop; `n1`, `n2` are the
lookahead lines.  After the period update and the section-boundary
`continue`s, the gross/sales cluster (blocks 2, 4, 5) and the chargeback
cluster (blocks 3, 6) touch disjoint locals, and the card-section block
reads the sales count the clusters produced — so the body is their
sequential assembly. -/
def chaseStep (st : ChaseState) (line : String) (n1 n2 : Option String) :
    ChaseState :=
  let lower := lowerLine line
  -- block 0: statement period
  let period := match st.statementPeriod with
    | some p => some p
    | none => extractPeriodFromLine line
  -- block 1: section boundaries (`continue`)
  if containsCL lower "summary of activity" || containsCL lower "activity summary" ||
      containsCL lower "monthly summary" || containsCL lower "monthly activity" then
    { st with statementPeriod := period,
              inSummarySection := true, inCardSection := false }
  else if containsCL lower "card type" || containsCL lower "by card type" ||
      containsCL lower "sales by card" then
    { st with statementPeriod := period,
              inCardSection := true, inSummarySection := false,
              cardSectionTotal := 0 }
  else
    let gs := chaseGSStep (st.grossVolume, st.salesCount) line n1 n2
    let cbp := chaseCbStep (st.chargebackCount, st.cbSectionFound) line n1
    chaseCardSectionStep
      { st with statementPeriod := period,
                grossVolume := gs.1, salesCount := gs.2,
                chargebackCount := cbp.1, cbSectionFound := cbp.2 } line

/-- The `parseChaseFields` loop over all lines. -/
def chaseGo (st : ChaseState) : List String → ChaseState
  | [] => st
  | l :: rest => chaseGo (chaseStep st l rest.head? (rest.drop 1).head?) rest

/-- Chase sales count: the explicit count, else the accumulated card-type
rows with a warning. -/
def chaseSalesResolve (st : ChaseState) : Option Nat × List String :=
  match st.salesCount with
  | some c => (some c, ([] : List String))
  | none =>
    if 0 < st.cardSectionTotal then
      (some st.cardSectionTotal,
       ["Sales count derived from card-type rows. Verify against statement total if multiple card types."])
    else (none, [])

/-- Chase chargeback count: never left null — defaulting to 0 warns. -/
def chaseCbResolve (st : ChaseState) : Nat × List String :=
  match st.chargebackCount with
  | some c => (c, ([] : List String))
  | none =>
    (0,
     [if st.cbSectionFound then
        "Chargeback row found but count could not be extracted. Defaulted to 0 — please verify."
      else "Chargeback row not found in PDF. Defaulted to 0."])

/-- Post-loop resolution of `parseChaseFields`. -/
def chaseResolve (st : ChaseState) : ExtractResult :=
  let (salesCount, wSalesFB) := chaseSalesResolve st
  let mastercardTxnCount :=
    if st.mcCardFound && 0 < st.mcCardSum then some st.mcCardSum else none
  let visaTxnCount :=
    if st.visaCardFound && 0 < st.visaCardSum then some st.visaCardSum else none
  let (chargebackCount, wCB) := chaseCbResolve st
  let wGross :=
    if st.grossVolume = none then
      ["\"Gross Sales\" / \"Total Sales\" not found in PDF. Please enter Gross Volume manually."]
    else []
  let wSales :=
    if salesCount = none then
      ["Transaction count not found in PDF. Please enter Sales Count manually."]
    else []
  let wMCNull :=
    if mastercardTxnCount = none then
      ["Mastercard transaction count not found in PDF. Enter it manually for a precise ECP calculation."]
    else []
  let warnings := wSalesFB ++ wCB ++ wGross ++ wSales ++ wMCNull
  let anyExtracted := !(st.grossVolume = none) || !(salesCount = none)
  { data :=
      if anyExtracted then
        some { totalSalesCount := salesCount,
               totalSalesVolume := st.grossVolume.map centsQ,
               cnpTxnCount := salesCount,
               mastercardTxnCount := mastercardTxnCount,
               visaTxnCount := visaTxnCount,
               tc15Count := some chargebackCount,
               tc40Count := some 0,
               fraudAmountUSD := none,
               statementPeriod := st.statementPeriod }
      else none,
    warnings := warnings }

/-- `parseChaseFields` — Chase Merchant Services / Paymentech extractor. -/
def parseChaseFields (lines : List String) : ExtractResult :=
  chaseResolve (chaseGo {} lines)

/-! ## Statement format detection -/

def FIRSTDATA_MARKERS : List String :=
  ["total amount submitted", "summary by card type", "servefirst",
   "first data", "fiserv", "fd merchant"]

def CHASE_MARKERS : List String :=
  ["paymentech", "chase merchant", "chase paymentech", "jpmorgan chase",
   "j.p. morgan", "summary of activity", "monthly activity summary",
   "card type summary", "sales by card type", "chase.com/merchant"]

inductive StatementFormat
  | firstdata
  | chase
  | unknown
  deriving Repr, DecidableEq

/-- `detectStatementFormat` — scan the first 80 lines (joined with `\n`,
lower-cased) for dialect markers; both matching prefers First Data. -/
def detectStatementFormat (lines : List String) : StatementFormat :=
  let sample := lowerCL (List.intercalate ['\n'] ((lines.take 80).map (·.data)))
  let hasFirstData := FIRSTDATA_MARKERS.any (containsCL sample)
  let hasChase := CHASE_MARKERS.any (containsCL sample)
  if hasFirstData && !hasChase then .firstdata
  else if hasChase && !hasFirstData then .chase
  else if hasFirstData then .firstdata
  else .unknown

/-! ## PDF dispatch (`countExtracted`, `parsePDFStatement`) -/

/-- JS `Boolean(x)` for a nullable number: `null` and `0` are falsy. -/
def truthyN : Option Nat → Bool
  | none => false
  | some n => !(n = 0)

/-- JS `Boolean(x)` for a nullable rational. -/
def truthyQ : Option ℚ → Bool
  | none => false
  | some q => decide (q ≠ 0)

/-- JS `Boolean(x)` for a nullable string: `null` and `''` are falsy. -/
def truthyS : Option String → Bool
  | none => false
  | some s => !(s = "")

/-- `countExtracted` — how many of five core entries are truthy
(`tc15Count !== null` is a genuine boolean, the others go through
`filter(Boolean)`); 0 when there is no data object. -/
def countExtracted (r : ExtractResult) : Nat :=
  match r.data with
  | none => 0
  | some d =>
    [truthyQ d.totalSalesVolume,
     truthyN d.totalSalesCount,
     !(d.tc15Count = none),
     truthyN d.mastercardTxnCount,
     truthyS d.statementPeriod].count true

/-- What the surrounding `async` machinery hands the pure PDF pipeline: a
successfully decoded list of reconstructed text lines, or a pdfjs
load/parse failure (encrypted, corrupt, …) with its message. -/
inductive PDFInput
  | ok (lines : List String)
  | decodeError (msg : String)
  deriving Repr, DecidableEq

/-- The resolved value of the promise `parsePDFStatement` returns.  The
source never rejects: both the scanned-PDF case and the decode-failure
case produce a regular result object. -/
structure PDFOutcome where
  data : Option PDFData
  warnings : List String
  requiresManualEntry : Bool
  detectedFormat : Option StatementFormat
  notice : Option String
  isPDFExtracted : Bool
  deriving Repr, DecidableEq

def scannedNotice : String :=
  "This PDF appears to contain scanned images rather than embedded text. Please enter the key figures manually. Your file is not uploaded or stored."

def manualNotice : String :=
  "Some required fields could not be found automatically in this PDF. Please enter them manually using the form below."

def inferredFormatWarning : String :=
  "Statement format not definitively identified — auto-detected best match. Please verify extracted figures against your statement."

/-- `parsePDFStatement` — total on every input: decode failures are caught
and returned as a manual-entry outcome, zero extracted lines short-circuit
to the scanned-PDF outcome, otherwise the detected dialect extractor runs
(both race when the format is unknown, the higher `countExtracted` wins
with ties to First Data, and an inferred-format warning is prepended when
that winner produced data). -/
def parsePDFStatement (input : PDFInput) : PDFOutcome :=
  match input with
  | .decodeError msg =>
    { data := none, warnings := [], requiresManualEntry := true,
      detectedFormat := none,
      notice := some ("PDF could not be read: " ++ msg ++ ". Please enter figures manually."),
      isPDFExtracted := false }
  | .ok lines =>
    if lines.length = 0 then
      { data := none, warnings := [], requiresManualEntry := true,
        detectedFormat := none, notice := some scannedNotice,
        isPDFExtracted := false }
    else
      let format := detectStatementFormat lines
      let result :=
        match format with
        | .firstdata => parseFirstDataFields lines
        | .chase => parseChaseFields lines
        | .unknown =>
          let fd := parseFirstDataFields lines
          let chase := parseChaseFields lines
          let r := if countExtracted chase ≤ countExtracted fd then fd else chase
          if !(r.data = none) then
            { r with warnings := inferredFormatWarning :: r.warnings }
          else r
      { data := result.data,
        warnings := result.warnings,
        requiresManualEntry := result.data = none,
        detectedFormat := some format,
        notice := if result.data = none then some manualNotice else none,
        isPDFExtracted := true }

/-! ## CSV column mapper -/

/-- The canonical CSV fields, in the fixed `Object.entries(COLUMN_ALIASES)`
iteration order (JS object insertion order). -/
inductive CsvField
  | totalSalesCount
  | totalSalesVolume
  | cnpTxnCount
  | tc15Count
  | tc40Count
  | fraudAmountUSD
  deriving Repr, DecidableEq

def csvFieldOrder : List CsvField :=
  [.totalSalesCount, .totalSalesVolume, .cnpTxnCount, .tc15Count,
   .tc40Count, .fraudAmountUSD]

/-- `COLUMN_ALIASES`. -/
def COLUMN_ALIASES : CsvField → List String
  | .totalSalesCount =>
    ["total_transactions", "transaction_count", "txn_count", "sales_count",
     "total_sales", "total txns", "transactions", "total_txn_count",
     "total transaction count", "count"]
  | .totalSalesVolume =>
    ["total_volume", "sales_volume", "gross_volume", "total_amount",
     "gross_sales", "volume", "total_sales_volume", "gross_amount",
     "total volume", "sales amount", "net_sales"]
  | .cnpTxnCount =>
    ["cnp_transactions", "card_not_present", "ecommerce_transactions",
     "online_transactions", "cnp_count", "cnp txns", "ecom_count",
     "card not present count", "internet_transactions", "cnp"]
  | .tc15Count =>
    ["chargebacks", "disputes", "tc15", "chargeback_count", "dispute_count",
     "cb_count", "total_chargebacks", "total chargebacks", "number_of_chargebacks",
     "retrieval_requests", "tc15_count"]
  | .tc40Count =>
    ["fraud", "tc40", "fraud_count", "fraud_transactions", "tc40_count",
     "fraud_reports", "total_fraud", "fraud count", "fraud items",
     "fraudulent_transactions", "confirmed_fraud"]
  | .fraudAmountUSD =>
    ["fraud_amount", "fraud_volume", "tc40_amount", "fraud_dollars",
     "fraud amount", "total_fraud_amount", "fraudulent_amount"]

/-- The JS field name, for warning texts. -/
def csvFieldName : CsvField → String
  | .totalSalesCount => "totalSalesCount"
  | .totalSalesVolume => "totalSalesVolume"
  | .cnpTxnCount => "cnpTxnCount"
  | .tc15Count => "tc15Count"
  | .tc40Count => "tc40Count"
  | .fraudAmountUSD => "fraudAmountUSD"

/-- `.replace(/\s+/g, '_')` — each maximal whitespace run becomes a single
underscore (tracked with a previous-char-was-whitespace flag so the
recursion stays structural). -/
def wsToUnderscoreAux : Bool → CL → CL
  | _, [] => []
  | prevWs, c :: rest =>
    if isWs c then
      if prevWs then wsToUnderscoreAux true rest
      else '_' :: wsToUnderscoreAux true rest
    else c :: wsToUnderscoreAux false rest

def wsToUnderscore (cs : CL) : CL := wsToUnderscoreAux false cs

/-- Header normalization `h?.toLowerCase().trim().replace(/\s+/g, '_')`. -/
def normalizeHeader (h : String) : CL :=
  wsToUnderscore (trimCL (lowerCL h.data))

/-- `detectColumn(headers, aliases)` — first alias (alias normalization
skips the `trim`) whose normalized form equals some normalized header;
returns that header's original spelling. -/
def detectColumn (headers : List String) (aliases : List String) :
    Option String :=
  aliases.findSome? fun al =>
    let n := wsToUnderscore (lowerCL al.data)
    (headers.map fun h => (h, normalizeHeader h)).findSome? fun hp =>
      if hp.2 = n then some hp.1 else none

/-! ### `parseNumeric` -/

/-- A finite JS decimal literal: `sign * mant / 10^scale * 10^expo`.
Keeping the parse structured (instead of producing a `ℚ` directly) keeps
the CSV pipeline decidable; `floatLitQ` performs the conversion. -/
structure FloatLit where
  neg : Bool
  mant : Nat
  scale : Nat
  expo : Int
  deriving Repr, DecidableEq

def floatLitQ (f : FloatLit) : ℚ :=
  (if f.neg then -1 else 1) * (f.mant : ℚ) * (10 : ℚ) ^ (f.expo - f.scale)

/-- JS `parseFloat` on a string with no leading whitespace: optional sign,
then `digits [. digits]` or `. digits`, then an optional exponent that
only counts when at least one exponent digit follows.  Trailing garbage is
ignored, no digits at all is `NaN` (`none`).  (A literal `Infinity`, which
`parseFloat` maps to the non-finite float, cannot arise from the
statements this engine reads and is outside this model.) -/
def jsParseFloat (cs : CL) : Option FloatLit :=
  let (neg, cs) :=
    match cs with
    | '-' :: rest => (true, rest)
    | '+' :: rest => (false, rest)
    | _ => (false, cs)
  let intDigits := cs.takeWhile Char.isDigit
  let cs1 := cs.drop intDigits.length
  let (fracDigits, cs2) :=
    match cs1 with
    | '.' :: rest => (rest.takeWhile Char.isDigit, rest.drop (rest.takeWhile Char.isDigit).length)
    | _ => ([], cs1)
  if intDigits.isEmpty && fracDigits.isEmpty then none
  else
    let expo : Int :=
      match cs2 with
      | e :: rest =>
        if e = 'e' || e = 'E' then
          let (en, rest') :=
            match rest with
            | '-' :: r => (true, r)
            | '+' :: r => (false, r)
            | _ => (false, rest)
          let eds := rest'.takeWhile Char.isDigit
          if eds.isEmpty then 0
          else if en then -(digitsToNat eds : Int) else (digitsToNat eds : Int)
        else 0
      | [] => 0
    some { neg := neg, mant := digitsToNat (intDigits ++ fracDigits),
           scale := fracDigits.length, expo := expo }

/-- `parseNumeric(value)` — `null`/`undefined`/blank cells are `null`;
otherwise strip `$`, `,`, `%`, spaces, trim, and `parseFloat`.  Returned
split into the structured literal; the JS number is `floatLitQ`. -/
def parseNumericF (value : Option String) : Option FloatLit :=
  match value with
  | none => none
  | some s =>
    if trimCL s.data = [] then none
    else
      let cleaned := trimCL (s.data.filter fun c => !charIn c "$,% ")
      jsParseFloat cleaned

def parseNumeric (value : Option String) : Option ℚ :=
  (parseNumericF value).map floatLitQ

/-! ### `parseCSVStatement` -/

/-- One data row as Papa.parse (`header: true`) delivers it: cell text
keyed by the original header string. -/
abbrev Row := List (String × String)

/-- `row[colName]` (`none` models JS `undefined` for a missing key). -/
def rowGet (row : Row) (col : String) : Option String := row.lookup col

/-- Column summation: every parseable cell of the column added up, blank
and unparseable cells skipped (not treated as 0). -/
def colSum (col : String) (rows : List Row) : ℚ :=
  rows.foldl
    (fun sum row =>
      match parseNumeric (rowGet row col) with
      | some v => sum + v
      | none => sum)
    0

/-- The `extracted` record of the CSV parser (all six fields tri-state:
`none` = column absent, `some 0` = column present summing to zero). -/
structure CSVData where
  totalSalesCount : Option ℚ
  totalSalesVolume : Option ℚ
  cnpTxnCount : Option ℚ
  tc15Count : Option ℚ
  tc40Count : Option ℚ
  fraudAmountUSD : Option ℚ
  deriving Repr, DecidableEq

def csvGet (d : CSVData) : CsvField → Option ℚ
  | .totalSalesCount => d.totalSalesCount
  | .totalSalesVolume => d.totalSalesVolume
  | .cnpTxnCount => d.cnpTxnCount
  | .tc15Count => d.tc15Count
  | .tc40Count => d.tc40Count
  | .fraudAmountUSD => d.fraudAmountUSD

def csvSet (d : CSVData) : CsvField → Option ℚ → CSVData
  | .totalSalesCount, v => { d with totalSalesCount := v }
  | .totalSalesVolume, v => { d with totalSalesVolume := v }
  | .cnpTxnCount, v => { d with cnpTxnCount := v }
  | .tc15Count, v => { d with tc15Count := v }
  | .tc40Count, v => { d with tc40Count := v }
  | .fraudAmountUSD, v => { d with fraudAmountUSD := v }

def csvEmpty : CSVData :=
  { totalSalesCount := none, totalSalesVolume := none, cnpTxnCount := none,
    tc15Count := none, tc40Count := none, fraudAmountUSD := none }

def colNotDetectedWarning (f : CsvField) : String :=
  "Column for \"" ++ csvFieldName f ++ "\" not detected — recorded as Not Found."

def cnpProxyWarning : String :=
  "CNP count column not found. Using total transaction count as proxy. Results may overstate VAMP ratio if card-present transactions are included."

/-- The successful payload of `parseCSVStatement`'s promise. -/
structure CSVOut where
  data : CSVData
  warnings : List String
  columnMap : CsvField → Option String
  rowCount : Nat
  headers : List String

/-- One turn of the summation loop: the loop body touches exactly the
field it iterates over, so the loop as a whole assigns each field
independently — a detected column becomes the row-wise sum (which may be
0), an undetected one stays `null`. -/
def csvExtractField (headers : List String) (rows : List Row)
    (f : CsvField) : Option ℚ :=
  match detectColumn headers (COLUMN_ALIASES f) with
  | none => none
  | some col => some (colSum col rows)

/-- The `extracted` record after the summation loop, before the CNP
proxy. -/
def csvExtractBase (headers : List String) (rows : List Row) : CSVData :=
  { totalSalesCount := csvExtractField headers rows .totalSalesCount,
    totalSalesVolume := csvExtractField headers rows .totalSalesVolume,
    cnpTxnCount := csvExtractField headers rows .cnpTxnCount,
    tc15Count := csvExtractField headers rows .tc15Count,
    tc40Count := csvExtractField headers rows .tc40Count,
    fraudAmountUSD := csvExtractField headers rows .fraudAmountUSD }

/-- The loop's warnings: one "not detected" notice per missing column, in
field-iteration order. -/
def csvBaseWarnings (headers : List String) : List String :=
  csvFieldOrder.foldr
    (fun f w =>
      if detectColumn headers (COLUMN_ALIASES f) = none then
        colNotDetectedWarning f :: w
      else w)
    []

/-- The `complete` callback body of `parseCSVStatement` (after the
empty-data check): detect a column per canonical field, sum the found
columns row-wise, warn per missing column, then the CNP proxy fallback. -/
def csvComplete (headers : List String) (rows : List Row) : CSVOut :=
  let extracted := csvExtractBase headers rows
  let warnings := csvBaseWarnings headers
  let (extracted, warnings) :=
    if extracted.cnpTxnCount = none &&
        (match extracted.totalSalesCount with
         | some t => decide (0 < t)
         | none => false) then
      ({ extracted with cnpTxnCount := extracted.totalSalesCount },
       warnings ++ [cnpProxyWarning])
    else (extracted, warnings)
  { data := extracted, warnings := warnings,
    columnMap := fun f => detectColumn headers (COLUMN_ALIASES f),
    rowCount := rows.length, headers := headers }

/-- `parseCSVStatement` — the promise either rejects (empty sheet or a
Papa.parse error, both modelled as `Except.error` with the exact message)
or resolves with the mapped columns.  The caller supplies what Papa.parse
produced from the file bytes. -/
def parseCSVStatement (papa : Except String (List String × List Row)) :
    Except String CSVOut :=
  match papa with
  | .error m => .error ("CSV parse error: " ++ m)
  | .ok (headers, rows) =>
    if rows.length = 0 then
      .error "CSV file appears to be empty or has no data rows."
    else .ok (csvComplete headers rows)

/-! ## Month detection from filenames (`detectMonthFromFilename`) -/

/-- Short month labels of `trendCalculator.js` (`MONTH_NAMES`). -/
def MONTH_NAMES : List String :=
  ["Jan", "Feb", "Mar", "Apr", "May", "Jun",
   "Jul", "Aug", "Sep", "Oct", "Nov", "Dec"]

/-- `formatMonthLabel({year, monthIndex})` for present year and index
(the only shape `detectMonthFromFilename` feeds it). -/
def formatMonthLabel (year monthIndex : Nat) : String :=
  (MONTH_NAMES.getD monthIndex "Month") ++ " " ++ natToString year

/-- `MONTH_MAP` — month-word lookup. -/
def MONTH_MAP : List (String × Nat) :=
  [("jan", 0), ("january", 0), ("feb", 1), ("february", 1),
   ("mar", 2), ("march", 2), ("apr", 3), ("april", 3), ("may", 4),
   ("jun", 5), ("june", 5), ("jul", 6), ("july", 6),
   ("aug", 7), ("august", 7), ("sep", 8), ("sept", 8), ("september", 8),
   ("oct", 9), ("october", 9), ("nov", 10), ("november", 10),
   ("dec", 11), ("december", 11)]

structure MonthInfo where
  year : Nat
  monthIndex : Nat
  month : String
  deriving Repr, DecidableEq

/-- `.replace(/\.[^.]+$/, '')` — strip a final dot-extension when the text
after the last dot is non-empty. -/
def stripExtension (cs : CL) : CL :=
  let rev := cs.reverse
  let ext := rev.takeWhile (fun c => !(c = '.'))
  match rev.drop ext.length with
  | '.' :: _ =>
    if ext.isEmpty then cs
    else (rev.drop (ext.length + 1)).reverse
  | _ => cs

/-- `\d{4}` followed by `[-_]` (a fifth digit blocks the separator in every
backtracking branch), then `\d{1,2}` greedy; leftmost occurrence. -/
def yearSepMonthScan : CL → Option (Nat × Nat)
  | [] => none
  | c :: rest =>
    let s := c :: rest
    let ds := s.takeWhile Char.isDigit
    (if ds.length = 4 then
      match s.drop 4 with
      | sep :: r1 =>
        if sep = '-' || sep = '_' then
          let ms := (r1.takeWhile Char.isDigit).take 2
          if ms.isEmpty then none
          else some (digitsToNat ds, digitsToNat ms)
        else none
      | [] => none
    else none).orElse (fun _ => yearSepMonthScan rest)

/-- `\d{1,2}` followed by `[-_]` (the run must be 1 or 2 digits), then
`\d{4}`; leftmost occurrence. -/
def monthSepYearScan : CL → Option (Nat × Nat)
  | [] => none
  | c :: rest =>
    let s := c :: rest
    let ds := s.takeWhile Char.isDigit
    (if 1 ≤ ds.length && ds.length ≤ 2 then
      match s.drop ds.length with
      | sep :: r1 =>
        if sep = '-' || sep = '_' then
          let ys := r1.takeWhile Char.isDigit
          if 4 ≤ ys.length then some (digitsToNat ds, digitsToNat (ys.take 4))
          else none
        else none
      | [] => none
    else none).orElse (fun _ => monthSepYearScan rest)

/-- `base.split(/[^a-z0-9]+/)` — split on maximal non-alphanumeric runs
(edge pieces may be empty, exactly as in JS). -/
def splitNonAlnumAux : Bool → CL → CL → List CL
  | _, [], acc => [acc.reverse]
  | inSep, c :: rest, acc =>
    if c.isAlpha || c.isDigit then splitNonAlnumAux false rest (c :: acc)
    else if inSep then splitNonAlnumAux true rest acc
    else acc.reverse :: splitNonAlnumAux true rest []

/-- `parseInt(word, 10)` on a lower-case alphanumeric word: value of the
leading digit run, `NaN` (`none`) when there is none. -/
def jsParseIntPrefix (w : CL) : Option Nat :=
  let ds := w.takeWhile Char.isDigit
  if ds.isEmpty then none else some (digitsToNat ds)

/-- `detectMonthFromFilename` — four patterns in order: `YYYY[-_]M(M)`,
`M(M)[-_]YYYY`, month word + year word anywhere (later words overwrite
earlier ones), month word alone with the current year.  `currentYear`
models `new Date().getFullYear()`. -/
def detectMonthFromFilename (currentYear : Nat) (filename : String) :
    Option MonthInfo :=
  let base := stripExtension (lowerCL filename.data)
  let p1 :=
    match yearSepMonthScan base with
    | some (y, m) =>
      if 2020 ≤ y && y ≤ 2030 && 1 ≤ m && m ≤ 12 then
        some (MonthInfo.mk y (m - 1) (formatMonthLabel y (m - 1)))
      else none
    | none => none
  match p1 with
  | some r => some r
  | none =>
    let p2 :=
      match monthSepYearScan base with
      | some (m, y) =>
        if 2020 ≤ y && y ≤ 2030 && 1 ≤ m && m ≤ 12 then
          some (MonthInfo.mk y (m - 1) (formatMonthLabel y (m - 1)))
        else none
      | none => none
    match p2 with
    | some r => some r
    | none =>
      let words := splitNonAlnumAux false base []
      let found :=
        words.foldl
          (fun (acc : Option Nat × Option Nat) w =>
            let fm := match MONTH_MAP.lookup (String.mk w) with
              | some idx => some idx
              | none => acc.1
            let fy := match jsParseIntPrefix w with
              | some n => if 2020 ≤ n && n ≤ 2030 then some n else acc.2
              | none => acc.2
            (fm, fy))
          (none, none)
      match found with
      | (some m, some y) => some (MonthInfo.mk y m (formatMonthLabel y m))
      | (some m, none) => some (MonthInfo.mk currentYear m (formatMonthLabel currentYear m))
      | (none, _) => none

/-! ## Batch aggregation (`parseStatement`, `parseStatements`) -/

/-- `calculateMonthlyVAMP` (`trendCalculator.js`): `null` when the CNP
count is zero, else `(tc40 + tc15) / cnp`. -/
def calculateMonthlyVAMP (tc40Count tc15Count cnpTxnCount : ℚ) : Option ℚ :=
  if cnpTxnCount = 0 then none
  else some ((tc40Count + tc15Count) / cnpTxnCount)

/-- The union of the CSV and PDF `data` payload shapes, as the batch layer
reads it (fields a CSV result does not carry read as `undefined`/`none`). -/
structure UData where
  totalSalesCount : Option ℚ
  totalSalesVolume : Option ℚ
  cnpTxnCount : Option ℚ
  mastercardTxnCount : Option ℚ
  visaTxnCount : Option ℚ
  tc15Count : Option ℚ
  tc40Count : Option ℚ
  fraudAmountUSD : Option ℚ
  statementPeriod : Option String
  deriving Repr, DecidableEq

def csvToUData (d : CSVData) : UData :=
  { totalSalesCount := d.totalSalesCount,
    totalSalesVolume := d.totalSalesVolume,
    cnpTxnCount := d.cnpTxnCount,
    mastercardTxnCount := none,
    visaTxnCount := none,
    tc15Count := d.tc15Count,
    tc40Count := d.tc40Count,
    fraudAmountUSD := d.fraudAmountUSD,
    statementPeriod := none }

def pdfToUData (d : PDFData) : UData :=
  { totalSalesCount := d.totalSalesCount.map (Nat.cast),
    totalSalesVolume := d.totalSalesVolume,
    cnpTxnCount := d.cnpTxnCount.map (Nat.cast),
    mastercardTxnCount := d.mastercardTxnCount.map (Nat.cast),
    visaTxnCount := d.visaTxnCount.map (Nat.cast),
    tc15Count := d.tc15Count.map (Nat.cast),
    tc40Count := d.tc40Count.map (Nat.cast),
    fraudAmountUSD := d.fraudAmountUSD,
    statementPeriod := d.statementPeriod }

/-- What `parseStatement` resolves with, as far as `parseStatements`
reads it (`data`, `warnings`, `isPDFExtracted`, `notice`). -/
structure ParseRes where
  data : Option UData
  warnings : List String
  isPDFExtracted : Bool
  notice : Option String

/-- One uploaded file.  The file's bytes determine both what Papa.parse
would yield on them (`csvContent`) and what the pdfjs line reconstruction
would yield (`pdfContent`); `parseStatement` picks the view matching the
file's extension/MIME type. -/
structure UploadFile where
  name : String
  mimeType : String
  csvContent : Except String (List String × List Row)
  pdfContent : PDFInput

/-- `file.name.toLowerCase().split('.').pop()`. -/
def fileExt (name : String) : String :=
  String.mk (((lowerCL name.data).splitOn '.').getLastD [])

/-- `parseStatement` — dispatch on extension / MIME type; `Except.error`
models a rejected promise. -/
def parseStatement (f : UploadFile) : Except String ParseRes :=
  let ext := fileExt f.name
  if ext = "csv" || f.mimeType = "text/csv" then
    match parseCSVStatement f.csvContent with
    | .error m => .error m
    | .ok out =>
      .ok { data := some (csvToUData out.data), warnings := out.warnings,
            isPDFExtracted := false, notice := none }
  else if ext = "pdf" || f.mimeType = "application/pdf" then
    let out := parsePDFStatement f.pdfContent
    .ok { data := out.data.map pdfToUData, warnings := out.warnings,
          isPDFExtracted := out.isPDFExtracted, notice := out.notice }
  else
    .error ("Unsupported file type \"." ++ ext ++ "\". Please upload a CSV or PDF statement.")

/-- The flattened per-file numeric fields of a successful batch entry,
with the exact `?? 0` / `?? null` coalescing of the source. -/
structure EntryFields where
  totalSalesCount : ℚ
  totalSalesVolume : ℚ
  cnpTxnCount : ℚ
  mastercardTxnCount : Option ℚ
  visaTxnCount : Option ℚ
  tc15Count : ℚ
  tc40Count : ℚ
  fraudAmountUSD : ℚ
  statementPeriod : Option String
  deriving Repr, DecidableEq

/-- One element of the `parseStatements` result array.  `failed` is a
rejected per-file promise (`{error}` only); `manual` is a fulfilled parse
with no usable data (the entry carries an error message plus warnings);
`success` carries the flattened fields. -/
inductive BatchEntry
  | failed (error : String)
  | manual (filename month : String) (year : Option Nat) (monthIndex : Option Nat)
      (isPDFExtracted : Bool) (warnings : List String) (error : String)
  | success (filename month : String) (year : Option Nat) (monthIndex : Option Nat)
      (isPDFExtracted : Bool) (fields : EntryFields) (vampRatio : Option ℚ)
      (warnings : List String)
  deriving Repr, DecidableEq

def BatchEntry.year? : BatchEntry → Option Nat
  | .failed _ => none
  | .manual _ _ y _ _ _ _ => y
  | .success _ _ y _ _ _ _ _ => y

def BatchEntry.monthIndex? : BatchEntry → Option Nat
  | .failed _ => none
  | .manual _ _ _ m _ _ _ => m
  | .success _ _ _ m _ _ _ _ => m

/-- The comparator of the final chronological sort, as a `≤` test: entries
without a year sort last, then year, then month index (`?? 0`); ties keep
upload order (the JS engine's sort is stable, as is `mergeSort`). -/
def entryLE (a b : BatchEntry) : Bool :=
  match a.year?, b.year? with
  | none, none => true
  | none, some _ => false
  | some _, none => true
  | some ya, some yb =>
    if ya = yb then (a.monthIndex?.getD 0) ≤ (b.monthIndex?.getD 0)
    else ya ≤ yb

/-- Settling of one file inside `parseStatements` (the `allSettled` body
plus the fulfilled/rejected unwrap). -/
def settleFile (currentYear : Nat) (f : UploadFile) : BatchEntry :=
  match parseStatement f with
  | .error msg => .failed msg
  | .ok res =>
    let monthInfo := detectMonthFromFilename currentYear f.name
    match res.data with
    | none =>
      .manual f.name
        (match monthInfo with | some mi => mi.month | none => f.name)
        (monthInfo.map (·.year)) (monthInfo.map (·.monthIndex))
        res.isPDFExtracted (res.warnings)
        (match res.notice with
         | some n => n
         | none => "Could not extract data from this file.")
    | some data =>
      let vampRatio := calculateMonthlyVAMP
        (data.tc40Count.getD 0) (data.tc15Count.getD 0) (data.cnpTxnCount.getD 0)
      let periodLabel :=
        match data.statementPeriod with
        | some p => if p = "" then
            (match monthInfo with | some mi => mi.month | none => f.name)
          else p
        | none => match monthInfo with | some mi => mi.month | none => f.name
      .success f.name periodLabel
        (monthInfo.map (·.year)) (monthInfo.map (·.monthIndex))
        res.isPDFExtracted
        { totalSalesCount := data.totalSalesCount.getD 0,
          totalSalesVolume := data.totalSalesVolume.getD 0,
          cnpTxnCount := data.cnpTxnCount.getD 0,
          mastercardTxnCount := data.mastercardTxnCount,
          visaTxnCount := data.visaTxnCount,
          tc15Count := data.tc15Count.getD 0,
          tc40Count := data.tc40Count.getD 0,
          fraudAmountUSD := data.fraudAmountUSD.getD 0,
          statementPeriod := data.statementPeriod }
        vampRatio res.warnings

/-- `parseStatements` — settle every file independently (one entry per
file, a rejection becoming a `{error}` entry, never a thrown batch
error), then sort chronologically.  `entryLE` is a total preorder, so the
stable insertion sort used here produces the same list as the JS
engine's stable `Array.prototype.sort` under the source's comparator. -/
def parseStatements (currentYear : Nat) (files : List UploadFile) :
    List BatchEntry :=
  (files.map (settleFile currentYear)).insertionSort
    (fun a b => entryLE a b = true)

/-! ## Generic keyword extractor (spec §4.4)

Modelled from the spec: no generic keyword/regex extractor exists anywhere
under `src/` — the v4 engine's "generic fallback" is the dual-dialect race
of `parsePDFStatement`.  Spec §4.4 describes a two-pass component (an
inline `label separator number` pass over the normalized full text, then
an adjacent-line pass that fills only the fields the inline pass missed),
so that component is reconstructed here from the spec's words alone. -/

/-- Modelled from the spec: a number token as §4.4 allows it — an optional
currency symbol, digits with optional thousands separators, an optional
decimal part.  Returns mantissa and decimal-digit count (the numeric value
is `mant / 10^scale`). -/
def keywordNumberAt (s : CL) : Option (Nat × Nat) :=
  let s := match s with
    | '$' :: rest => rest
    | _ => s
  let run := s.takeWhile (fun c => c.isDigit || c = ',')
  if (run.filter Char.isDigit).isEmpty then none
  else
    match s.drop run.length with
    | '.' :: rest =>
      let frac := rest.takeWhile Char.isDigit
      some (digitsToNat (run.filter Char.isDigit ++ frac), frac.length)
    | _ => some (digitsToNat (run.filter Char.isDigit), 0)

/-- Modelled from the spec: the separator between label and number in the
inline pass (whitespace, colon, equals, dash). -/
def isKeywordSep (c : Char) : Bool :=
  isWs c || c = ':' || c = '=' || c = '-'

/-- Modelled from the spec: one inline regex `label separator number`,
searched left to right over the lower-cased text. -/
def inlineLabelScan (lbl : String) : CL → Option (Nat × Nat)
  | [] => none
  | c :: rest =>
    (if lbl.data.isPrefixOf (c :: rest) then
      keywordNumberAt (((c :: rest).drop lbl.data.length).dropWhile isKeywordSep)
    else none).orElse (fun _ => inlineLabelScan lbl rest)

/-- Modelled from the spec: ordered label list for the chargeback-count
field (`tc15Count`); first matching regex wins. -/
def TC15_INLINE_LABELS : List String :=
  ["chargeback count", "chargebacks", "disputes", "tc15"]

/-- Modelled from the spec: the inline pass for one canonical field. -/
def inlinePass (labels : List String) (text : String) : Option (Nat × Nat) :=
  labels.findSome? fun lbl => inlineLabelScan lbl (lowerCL text.data)

/-- Modelled from the spec: the adjacent-line pass — split into trimmed
non-empty lines, find a line-exact label match, then take the first of
the next 3 lines that begins with a number. -/
def adjacentPass (labels : List String) (text : String) : Option (Nat × Nat) :=
  let lines := ((lowerCL text.data).splitOn '\n').map trimCL |>.filter (!·.isEmpty)
  go lines
where
  go : List CL → Option (Nat × Nat)
    | [] => none
    | l :: rest =>
      (if labels.any (fun lbl => l = lbl.data) then
        (rest.take 3).findSome? keywordNumberAt
      else none).orElse (fun _ => go rest)

/-- Modelled from the spec: merge rule — the inline match takes
precedence; the adjacent-line pass fills only fields the inline pass
missed. -/
def genericFieldValue (labels : List String) (text : String) :
    Option (Nat × Nat) :=
  match inlinePass labels text with
  | some v => some v
  | none => adjacentPass labels text

/-- The JS number a `(mantissa, scale)` pair denotes. -/
def keywordNumQ (p : Nat × Nat) : ℚ := (p.1 : ℚ) / (10 : ℚ) ^ p.2

/-- Modelled from the spec: the generic extractor's chargeback-count
field. -/
def genericTc15 (text : String) : Option ℚ :=
  (genericFieldValue TC15_INLINE_LABELS text).map keywordNumQ

/-- How many of the nine canonical fields of a data record are
non-`NotFound` — the measure the spec's words ("greatest count of
non-NotFound canonical fields") describe, to compare against the
engine's actual 5-component `countExtracted` score. -/
def canonNonNotFound (d : PDFData) : Nat :=
  [decide (d.totalSalesCount ≠ none),
   decide (d.totalSalesVolume ≠ none),
   decide (d.cnpTxnCount ≠ none),
   decide (d.mastercardTxnCount ≠ none),
   decide (d.visaTxnCount ≠ none),
   decide (d.tc15Count ≠ none),
   decide (d.tc40Count ≠ none),
   decide (d.fraudAmountUSD ≠ none),
   decide (d.statementPeriod ≠ none)].count true

/-! ### A concrete three-file batch (file 2 corrupt) -/

def batchFileJan : UploadFile :=
  { name := "statement_jan_2026.csv", mimeType := "text/csv",
    csvContent := .ok (["total_transactions"], [[("total_transactions", "500")]]),
    pdfContent := .ok [] }

def batchFileCorrupt : UploadFile :=
  { name := "statement_feb_2026.csv", mimeType := "text/csv",
    csvContent := .error "Too few fields", pdfContent := .ok [] }

def batchFileMar : UploadFile :=
  { name := "statement_mar_2026.csv", mimeType := "text/csv",
    csvContent := .ok (["total_transactions"], [[("total_transactions", "600")]]),
    pdfContent := .ok [] }

/-- The warnings both well-formed batch CSVs produce (five undetected
columns, then the CNP proxy notice). -/
def batchCsvWarnings : List String :=
  [colNotDetectedWarning .totalSalesVolume, colNotDetectedWarning .cnpTxnCount,
   colNotDetectedWarning .tc15Count, colNotDetectedWarning .tc40Count,
   colNotDetectedWarning .fraudAmountUSD, cnpProxyWarning]

/-! # Theorems -/

/-! ## Chargeback-count state lemmas (First Data loop) -/

/-- The loop's chargeback components evolve exactly by `fdCbStep`: no
other block of the loop body writes them. -/
theorem fdStep_cb (st : FDState) (l : String) (n1 n2 : Option String) :
    ((fdStep st l n1 n2).chargebackCount, (fdStep st l n1 n2).cbSectionFound) =
      fdCbStep (st.chargebackCount, st.cbSectionFound) l := rfl

/-- Over a whole line list the chargeback components are a plain fold. -/
theorem fdGo_cb (lines : List String) (st : FDState) :
    ((fdGo st lines).chargebackCount, (fdGo st lines).cbSectionFound) =
      List.foldl fdCbStep (st.chargebackCount, st.cbSectionFound) lines := by
  induction lines generalizing st with
  | nil => rfl
  | cons l rest ih =>
    rw [fdGo, List.foldl_cons, ← fdStep_cb st l rest.head? (rest.drop 1).head?]
    exact ih _

/-- A resolved chargeback count is final: every later line leaves it. -/
theorem fdCbStep_some (c : Nat) (f : Bool) (l : String) :
    fdCbStep (some c, f) l = (some c, f) := by
  simp [fdCbStep]

theorem foldl_fdCbStep_some (c : Nat) (f : Bool) (ls : List String) :
    List.foldl fdCbStep (some c, f) ls = (some c, f) := by
  induction ls with
  | nil => rfl
  | cons l rest ih => rw [List.foldl_cons, fdCbStep_some]; exact ih

/-- A line carrying one of the `NO_CB_PHRASES` resolves a still-open
chargeback count to 0. -/
theorem fdCbStep_phrase (l : String) (f : Bool)
    (h : NO_CB_PHRASES.any (containsCL (lowerLine l)) = true) :
    fdCbStep (none, f) l = (some 0, f) := by
  simp [fdCbStep, h]

/-- The First Data result's `tc15Count` is always the resolved chargeback
count. -/
theorem fdResolve_tc15 (st : FDState) (d : PDFData)
    (h : (fdResolve st).data = some d) :
    d.tc15Count = some (fdCbResolve st).1 := by
  unfold fdResolve at h
  dsimp only at h
  split at h
  · exact (Option.some.injEq _ _ ▸ h : _ = d) ▸ rfl
  · exact absurd h (by simp)

/-- The Chase result's `tc15Count` is always the resolved chargeback
count. -/
theorem chaseResolve_tc15 (st : ChaseState) (d : PDFData)
    (h : (chaseResolve st).data = some d) :
    d.tc15Count = some (chaseCbResolve st).1 := by
  unfold chaseResolve at h
  dsimp only at h
  split at h
  · exact (Option.some.injEq _ _ ▸ h : _ = d) ▸ rfl
  · exact absurd h (by simp)

/-- The resolved chargeback count is the loop value defaulted to 0. -/
theorem fdCbResolve_fst (st : FDState) :
    (fdCbResolve st).1 = st.chargebackCount.getD 0 := by
  cases h : st.chargebackCount <;> simp [fdCbResolve, h]

theorem chaseCbResolve_fst (st : ChaseState) :
    (chaseCbResolve st).1 = st.chargebackCount.getD 0 := by
  cases h : st.chargebackCount <;> simp [chaseCbResolve, h]

/-- An unresolved chargeback count always leaves a "Defaulted to 0"
warning in the First Data result. -/
theorem fdResolve_cb_warning (st : FDState)
    (h : st.chargebackCount = none) :
    ∃ w ∈ (fdResolve st).warnings, containsCL w.data "Defaulted to 0" = true := by
  rcases hmc : fdMCResolve st with ⟨mc, wMC⟩
  rcases hvs : fdVisaResolve st with ⟨vs, wVS⟩
  rcases hsl : fdSalesResolve st with ⟨sl, wCNP⟩
  refine ⟨if st.cbSectionFound then
      "Chargeback section found but count could not be extracted. Defaulted to 0 — please verify."
    else "Chargeback section not found in PDF. Defaulted to 0.", ?_, ?_⟩
  · simp [fdResolve, fdCbResolve, h, hmc, hvs, hsl]
  · cases st.cbSectionFound <;> simp <;> decide

/-- Same for the Chase result. -/
theorem chaseResolve_cb_warning (st : ChaseState)
    (h : st.chargebackCount = none) :
    ∃ w ∈ (chaseResolve st).warnings, containsCL w.data "Defaulted to 0" = true := by
  rcases hsl : chaseSalesResolve st with ⟨sl, wFB⟩
  refine ⟨if st.cbSectionFound then
      "Chargeback row found but count could not be extracted. Defaulted to 0 — please verify."
    else "Chargeback row not found in PDF. Defaulted to 0.", ?_, ?_⟩
  · simp [chaseResolve, chaseCbResolve, h, hsl]
  · cases st.cbSectionFound <;> simp <;> decide

/-- The CSV `tc15Count` stays `NotFound` whenever no chargebacks column
was detected (the CNP proxy only ever writes `cnpTxnCount`). -/
theorem csvComplete_tc15_of_no_column (headers : List String) (rows : List Row)
    (h : detectColumn headers (COLUMN_ALIASES .tc15Count) = none) :
    (csvComplete headers rows).data.tc15Count = none := by
  unfold csvComplete
  dsimp only
  split
  · simp [csvExtractBase, csvExtractField, h]
  · simp [csvExtractBase, csvExtractField, h]

/-! ## Claim C2 — `tc15Count` is never `NotFound` -/

/-- C2, counterexample: the claim quantifies over CSV documents too, but a
CSV whose only column is `total_transactions` returns a field record whose
`tc15Count` is `NotFound` (`null`) — the CSV path has no
chargeback-default rule. -/
theorem c2_csv_tc15_not_found :
    (parseCSVStatement
        (.ok (["total_transactions"], [[("total_transactions", "500")]]))).map
      (fun o => o.data.tc15Count) = .ok none := by
  have h : detectColumn ["total_transactions"] (COLUMN_ALIASES .tc15Count) = none := by
    decide
  simp [parseCSVStatement, Except.map,
    csvComplete_tc15_of_no_column ["total_transactions"]
      [[("total_transactions", "500")]] h]

/-- C2, amended: for the PDF dialect extractors the claim holds — any
returned field record carries `tc15Count = Value(loop count defaulted to
0)`, never `NotFound`, and when no chargeback evidence was found the
count defaults to `Zero` with a "Defaulted to 0" warning.  The CSV path,
however, records `tc15Count` as `NotFound` when no chargebacks column is
detected (the batch layer later coalesces it to 0 with `?? 0`). -/
theorem c2_tc15_default_amended :
    (∀ lines d, (parseFirstDataFields lines).data = some d →
        d.tc15Count = some ((fdGo {} lines).chargebackCount.getD 0)) ∧
    (∀ lines d, (parseChaseFields lines).data = some d →
        d.tc15Count = some ((chaseGo {} lines).chargebackCount.getD 0)) ∧
    (∀ lines, (fdGo {} lines).chargebackCount = none →
        ∃ w ∈ (parseFirstDataFields lines).warnings,
          containsCL w.data "Defaulted to 0" = true) ∧
    (∀ lines, (chaseGo {} lines).chargebackCount = none →
        ∃ w ∈ (parseChaseFields lines).warnings,
          containsCL w.data "Defaulted to 0" = true) ∧
    (∀ headers rows, detectColumn headers (COLUMN_ALIASES .tc15Count) = none →
        (csvComplete headers rows).data.tc15Count = none) := by
  refine ⟨?_, ?_, ?_, ?_, ?_⟩
  · intro lines d h
    rw [parseFirstDataFields] at h
    rw [fdResolve_tc15 _ _ h, fdCbResolve_fst]
  · intro lines d h
    rw [parseChaseFields] at h
    rw [chaseResolve_tc15 _ _ h, chaseCbResolve_fst]
  · intro lines h
    exact fdResolve_cb_warning _ h
  · intro lines h
    exact chaseResolve_cb_warning _ h
  · intro headers rows h
    exact csvComplete_tc15_of_no_column headers rows h

/-- C2, witness: the amended theorem applied at concrete inputs — a PDF
with no chargeback evidence warns and defaults, and the concrete CSV
keeps `tc15Count` unresolved. -/
theorem c2_tc15_default_amended_witness :
    (∃ w ∈ (parseFirstDataFields ["hello world"]).warnings,
        containsCL w.data "Defaulted to 0" = true) ∧
    (csvComplete ["total_transactions"] [[("total_transactions", "500")]]).data.tc15Count
      = none :=
  ⟨c2_tc15_default_amended.2.2.1 ["hello world"] (by decide),
   c2_tc15_default_amended.2.2.2.2 ["total_transactions"]
     [[("total_transactions", "500")]] (by decide)⟩

/-! ## Claim C4 — the "no chargebacks" phrase -/

/-- C4, counterexample: the phrase does not short-circuit evidence found
on EARLIER lines — here a `Total Chargebacks 7` row two lines before the
phrase resolves `tc15Count = 7`, not `Zero`, even though the phrase is
present. -/
theorem c4_phrase_not_shortcircuiting :
    NO_CB_PHRASES.any
      (containsCL (lowerLine "No Chargebacks/Reversals for this statement period")) = true ∧
    ((parseFirstDataFields
        ["Total Amount Submitted $100.00", "Total Chargebacks 7",
         "No Chargebacks/Reversals for this statement period"]).data.map
      (·.tc15Count)) = some (some 7) := by
  constructor
  · decide
  · decide

/-- C4, amended: the phrase resolves `tc15Count` to `Zero` provided no
earlier line already resolved a chargeback count (line order, not
strategy priority, decides); in particular chargeback-labelled lines
bearing only a nonzero dollar amount never resolve the count, so the
phrase still yields `Zero` in their presence. -/
theorem c4_phrase_zero_amended (pre : List String) (l : String)
    (post : List String)
    (hopen : (List.foldl fdCbStep (none, false) pre).1 = none)
    (hphrase : NO_CB_PHRASES.any (containsCL (lowerLine l)) = true) :
    (fdGo {} (pre ++ l :: post)).chargebackCount = some 0 ∧
    ∀ d, (parseFirstDataFields (pre ++ l :: post)).data = some d →
      d.tc15Count = some 0 := by
  have hcb : (fdGo {} (pre ++ l :: post)).chargebackCount = some 0 := by
    have hpair := fdGo_cb (pre ++ l :: post) {}
    rcases hpre : List.foldl fdCbStep (none, false) pre with ⟨cb0, f0⟩
    have hcb0 : cb0 = none := by
      have := hopen
      rw [hpre] at this
      exact this
    subst hcb0
    have : List.foldl fdCbStep (none, false) (pre ++ l :: post) = (some 0, f0) := by
      rw [List.foldl_append, hpre, List.foldl_cons, fdCbStep_phrase l f0 hphrase,
        foldl_fdCbStep_some]
    have hstep : ((fdGo {} (pre ++ l :: post)).chargebackCount,
        (fdGo {} (pre ++ l :: post)).cbSectionFound) = (some 0, f0) := by
      rw [hpair]
      exact this
    exact congrArg Prod.fst hstep
  refine ⟨hcb, ?_⟩
  intro d h
  rw [parseFirstDataFields] at h
  rw [fdResolve_tc15 _ _ h, fdCbResolve_fst, hcb]
  rfl

/-- C4, witness: the amended theorem at a concrete document where the
phrase precedes a chargeback-labelled line with a nonzero dollar
amount — the phrase wins and the dollar amount is ignored. -/
theorem c4_phrase_zero_amended_witness :
    (fdGo {} (["No Chargebacks/Reversals for this statement period"] ++
      "Chargebacks/Reversals $123.45" :: [])).chargebackCount = some 0 :=
  (c4_phrase_zero_amended []
    "No Chargebacks/Reversals for this statement period"
    ["Chargebacks/Reversals $123.45"] (by decide) (by decide)).1

/-! ## Claim C5 — explicit Total row vs itemized card rows -/

/-- C5, counterexample: the claim quantifies over every line sequence
whose card-type section CONTAINS the rows `Visa 120`, `Mastercard 80`,
`Total 200` — but a section that also contains a second Visa row
(`Visa 10`) still satisfies that description and resolves
`visaTxnCount = 130`, not 120 (all Visa rows accumulate). -/
theorem c5_extra_visa_row :
    ((parseFirstDataFields
        ["Summary By Card Type", "Visa 120", "Visa 10", "Mastercard 80",
         "Total 200"]).data.map (fun d => (d.totalSalesCount, d.visaTxnCount)))
      = some (some 200, some 130) := by
  decide

/-- C5, amended: a card-type section whose itemized brand rows are exactly
`Visa 120` and `Mastercard 80` followed by a `Total 200` row resolves
`totalSalesCount = 200` (the explicit Total row wins over the 120+80 sum)
while `visaTxnCount = 120` and `mastercardTxnCount = 80` are recovered
from the itemized rows. -/
theorem c5_total_row_precedence :
    (parseFirstDataFields
        ["Summary By Card Type", "Visa 120", "Mastercard 80", "Total 200"]).data =
      some { totalSalesCount := some 200, totalSalesVolume := none,
             cnpTxnCount := some 200, mastercardTxnCount := some 80,
             visaTxnCount := some 120, tc15Count := some 0, tc40Count := some 0,
             fraudAmountUSD := none, statementPeriod := none } := by
  decide

/-! ## Claim C6 — the CNP proxy -/

/-- C6, counterexample: on the PDF dialect path the CNP proxy fires
silently — `cnpTxnCount` resolves to the positive `totalSalesCount`, but
no warning mentioning "proxy" (or anything else about the fallback) is
appended, contrary to the claim's "a warning is appended". -/
theorem c6_pdf_proxy_without_warning :
    ((parseFirstDataFields
        ["Summary By Card Type", "Visa 120", "Mastercard 80", "Total 200"]).data.map
      (fun d => (d.cnpTxnCount, d.totalSalesCount))) = some (some 200, some 200) ∧
    ∀ w ∈ (parseFirstDataFields
        ["Summary By Card Type", "Visa 120", "Mastercard 80", "Total 200"]).warnings,
      containsCL w.data "proxy" = false := by
  constructor
  · decide
  · decide

/-- C6, amended: `cnpTxnCount` is never `NotFound` when `totalSalesCount`
resolved — on the CSV path the proxy fires with a warning containing
"proxy"; on the PDF dialect paths `cnpTxnCount` is set to
`totalSalesCount` unconditionally and silently. -/
theorem c6_cnp_proxy_amended :
    (∀ headers rows t,
        (csvExtractBase headers rows).cnpTxnCount = none →
        (csvExtractBase headers rows).totalSalesCount = some t →
        0 < t →
        (csvComplete headers rows).data.cnpTxnCount = some t ∧
        cnpProxyWarning ∈ (csvComplete headers rows).warnings ∧
        containsCL cnpProxyWarning.data "proxy" = true) ∧
    (∀ lines d, (parseFirstDataFields lines).data = some d →
        d.cnpTxnCount = d.totalSalesCount) ∧
    (∀ lines d, (parseChaseFields lines).data = some d →
        d.cnpTxnCount = d.totalSalesCount) := by
  refine ⟨?_, ?_, ?_⟩
  · intro headers rows t h1 h2 h3
    have hd : decide (0 < t) = true := decide_eq_true h3
    refine ⟨?_, ?_, by decide⟩
    · unfold csvComplete
      dsimp only
      rw [h1, h2]
      simp [hd]
    · unfold csvComplete
      dsimp only
      rw [h1, h2]
      simp [hd]
  · intro lines d h
    rw [parseFirstDataFields] at h
    unfold fdResolve at h
    dsimp only at h
    split at h
    · exact (Option.some.injEq _ _ ▸ h : _ = d) ▸ rfl
    · exact absurd h (by simp)
  · intro lines d h
    rw [parseChaseFields] at h
    unfold chaseResolve at h
    dsimp only at h
    split at h
    · exact (Option.some.injEq _ _ ▸ h : _ = d) ▸ rfl
    · exact absurd h (by simp)

/-- C6, witness: the amended theorem at the concrete CSV with a
`total_transactions` column summing to 500 and no CNP column. -/
theorem c6_cnp_proxy_amended_witness :
    (csvComplete ["total_transactions"] [[("total_transactions", "500")]]).data.cnpTxnCount
      = some 500 ∧
    cnpProxyWarning ∈
      (csvComplete ["total_transactions"] [[("total_transactions", "500")]]).warnings ∧
    containsCL cnpProxyWarning.data "proxy" = true := by
  have hpn : parseNumericF (some "500") = some ⟨false, 500, 0, 0⟩ := by decide
  have hc : colSum "total_transactions" [[("total_transactions", "500")]] = 500 := by
    simp [colSum, rowGet, List.lookup, parseNumeric, hpn, floatLitQ]
  have hd : detectColumn ["total_transactions"] (COLUMN_ALIASES .totalSalesCount)
      = some "total_transactions" := by decide
  exact c6_cnp_proxy_amended.1 ["total_transactions"]
    [[("total_transactions", "500")]] 500
    (by decide)
    (by simp [csvExtractBase, csvExtractField, hd, hc])
    (by norm_num)

/-! ## Claim C3 — `parsePDFStatement` error handling and manual entry -/

/-- C3, counterexample: `requiresManualEntry` can be `true` although a
canonical field WAS resolvable — the single line `Chargeback Reversal 7`
lets the First Data extractor resolve a chargeback count of 7, yet the
returned record is `null` (neither gross volume nor sales count resolved)
and `requiresManualEntry` is set. -/
theorem c3_manual_entry_despite_resolvable_field :
    (parsePDFStatement (.ok ["Chargeback Reversal 7"])).requiresManualEntry = true ∧
    (fdGo {} ["Chargeback Reversal 7"]).chargebackCount = some 7 := by
  constructor
  · decide
  · decide

/-- C3, amended: `parsePDFStatement` is total — decode failures are
returned as a manual-entry outcome, never raised; zero extracted lines
always set `requiresManualEntry = true`; and `requiresManualEntry` is
true exactly when the returned data record is `null`, which for either
dialect extractor means neither gross volume nor (post-fallback) sales
count resolved — other fields (chargeback count, statement period) may
well have been resolvable. -/
theorem c3_manual_entry_amended :
    (∀ m, (parsePDFStatement (.decodeError m)).requiresManualEntry = true ∧
        (parsePDFStatement (.decodeError m)).data = none) ∧
    ((parsePDFStatement (.ok [])).requiresManualEntry = true) ∧
    (∀ lines, (parsePDFStatement (.ok lines)).requiresManualEntry = true ↔
        (parsePDFStatement (.ok lines)).data = none) ∧
    (∀ lines, (parseFirstDataFields lines).data = none ↔
        ((fdGo {} lines).grossVolume = none ∧
         (fdSalesResolve (fdGo {} lines)).1 = none)) ∧
    (∀ lines, (parseChaseFields lines).data = none ↔
        ((chaseGo {} lines).grossVolume = none ∧
         (chaseSalesResolve (chaseGo {} lines)).1 = none)) := by
  refine ⟨?_, by decide, ?_, ?_, ?_⟩
  · intro m
    exact ⟨rfl, rfl⟩
  · intro lines
    unfold parsePDFStatement
    dsimp only
    split
    · simp
    · simp
  · intro lines
    rw [parseFirstDataFields]
    rcases hsl : fdSalesResolve (fdGo {} lines) with ⟨sl, wCNP⟩
    rcases hmc : fdMCResolve (fdGo {} lines) with ⟨mc, wMC⟩
    rcases hvs : fdVisaResolve (fdGo {} lines) with ⟨vs, wVS⟩
    cases hg : (fdGo {} lines).grossVolume <;> cases hs : sl <;>
      simp [fdResolve, hsl, hmc, hvs, hg, hs]
  · intro lines
    rw [parseChaseFields]
    rcases hsl : chaseSalesResolve (chaseGo {} lines) with ⟨sl, wFB⟩
    cases hg : (chaseGo {} lines).grossVolume <;> cases hs : sl <;>
      simp [chaseResolve, hsl, hg, hs]

/-! ## CSV column-mapping lemmas -/

/-- A field of the summed record: the column's row sum when detected,
`null` otherwise. -/
theorem csvExtractBase_get (headers : List String) (rows : List Row)
    (f : CsvField) :
    csvGet (csvExtractBase headers rows) f = csvExtractField headers rows f := by
  cases f <;> rfl

/-- The CNP proxy leaves every field other than `cnpTxnCount` alone. -/
theorem csvComplete_get_of_ne_cnp (headers : List String) (rows : List Row)
    (f : CsvField) (hf : f ≠ .cnpTxnCount) :
    csvGet (csvComplete headers rows).data f = csvExtractField headers rows f := by
  unfold csvComplete
  dsimp only
  split
  · rw [← csvExtractBase_get]
    cases f <;> first | rfl | exact absurd rfl hf
  · exact csvExtractBase_get headers rows f

/-- A missing column's warning ends up in the loop's warning list. -/
theorem csvBaseWarnings_mem (headers : List String) (f : CsvField)
    (h : detectColumn headers (COLUMN_ALIASES f) = none) :
    colNotDetectedWarning f ∈ csvBaseWarnings headers := by
  have aux : ∀ L : List CsvField, f ∈ L →
      colNotDetectedWarning f ∈
        L.foldr (fun g w =>
          if detectColumn headers (COLUMN_ALIASES g) = none then
            colNotDetectedWarning g :: w
          else w) [] := by
    intro L
    induction L with
    | nil => intro hm; exact absurd hm (List.not_mem_nil _)
    | cons g L ih =>
      intro hm
      rcases List.mem_cons.mp hm with hfg | hfL
      · subst hfg
        simp [h]
      · by_cases hg : detectColumn headers (COLUMN_ALIASES g) = none <;>
          simp [hg, ih hfL]
  have hfo : f ∈ csvFieldOrder := by cases f <;> decide
  exact aux csvFieldOrder hfo

/-- The loop's warnings survive into the final warning list (the proxy
only appends). -/
theorem csvComplete_warnings_mem (headers : List String) (rows : List Row)
    (w : String) (h : w ∈ csvBaseWarnings headers) :
    w ∈ (csvComplete headers rows).warnings := by
  unfold csvComplete
  dsimp only
  split
  · exact List.mem_append_left _ h
  · exact h

/-! ## Claim C1 — CSV null-vs-zero column mapping -/

/-- C1, counterexample: the claim says a field with no matched column
"resolves to NotFound (null) with a warning, never Zero" — but
`cnpTxnCount` with no matched column resolves to `Value(500)` (the CNP
proxy), not `NotFound`, on a CSV whose only column is
`total_transactions` summing to 500. -/
theorem c1_unmatched_cnp_resolves_to_value :
    detectColumn ["total-transactions x", "total_transactions"]
        (COLUMN_ALIASES .cnpTxnCount) = none ∧
    (csvComplete ["total-transactions x", "total_transactions"]
        [[("total_transactions", "500")]]).data.cnpTxnCount = some 500 := by
  refine ⟨by decide, ?_⟩
  have hpn : parseNumericF (some "500") = some ⟨false, 500, 0, 0⟩ := by decide
  have hc : colSum "total_transactions" [[("total_transactions", "500")]] = 500 := by
    simp [colSum, rowGet, List.lookup, parseNumeric, hpn, floatLitQ]
  have hd : detectColumn ["total-transactions x", "total_transactions"]
      (COLUMN_ALIASES .totalSalesCount) = some "total_transactions" := by decide
  have hb1 : (csvExtractBase ["total-transactions x", "total_transactions"]
      [[("total_transactions", "500")]]).cnpTxnCount = none := by decide
  have hb2 : (csvExtractBase ["total-transactions x", "total_transactions"]
      [[("total_transactions", "500")]]).totalSalesCount = some 500 := by
    simp [csvExtractBase, csvExtractField, hd, hc]
  unfold csvComplete
  dsimp only
  rw [hb1, hb2]
  norm_num

/-- C1, amended: a matched column always resolves to the sum of its
parseable cells (`Zero` when that sum is zero, never `NotFound`); an
unmatched column resolves to `NotFound` with a warning for every field
except `cnpTxnCount`, which the CNP proxy may subsequently promote to the
total sales count; unparseable or blank cells are skipped, leaving the
sum unchanged rather than contributing 0. -/
theorem c1_csv_column_mapping_amended :
    (∀ headers rows f col,
        detectColumn headers (COLUMN_ALIASES f) = some col →
        csvGet (csvComplete headers rows).data f = some (colSum col rows)) ∧
    (∀ headers rows f,
        detectColumn headers (COLUMN_ALIASES f) = none → f ≠ .cnpTxnCount →
        csvGet (csvComplete headers rows).data f = none) ∧
    (∀ headers (rows : List Row) f,
        detectColumn headers (COLUMN_ALIASES f) = none →
        colNotDetectedWarning f ∈ (csvComplete headers rows).warnings) ∧
    (∀ col (rows : List Row) row,
        parseNumeric (rowGet row col) = none →
        colSum col (row :: rows) = colSum col rows) := by
  refine ⟨?_, ?_, ?_, ?_⟩
  · intro headers rows f col hcol
    by_cases hf : f = CsvField.cnpTxnCount
    · subst hf
      unfold csvComplete
      dsimp only
      have hb : (csvExtractBase headers rows).cnpTxnCount = some (colSum col rows) := by
        have := csvExtractBase_get headers rows .cnpTxnCount
        simp only [csvGet] at this
        rw [this, csvExtractField, hcol]
      rw [hb]
      simp [csvGet, hb]
    · rw [csvComplete_get_of_ne_cnp headers rows f hf, csvExtractField, hcol]
  · intro headers rows f hcol hf
    rw [csvComplete_get_of_ne_cnp headers rows f hf, csvExtractField, hcol]
  · intro headers rows f hcol
    exact csvComplete_warnings_mem headers rows _ (csvBaseWarnings_mem headers f hcol)
  · intro col rows row h
    simp [colSum, h]

/-- C1, witness: a `chargebacks` column whose only cell is `0` resolves
`tc15Count` to `Zero` (the value 0), while the undetected volume column
resolves to `NotFound` with its warning. -/
theorem c1_csv_column_mapping_amended_witness :
    csvGet (csvComplete ["chargebacks"] [[("chargebacks", "0")]]).data .tc15Count
      = some (colSum "chargebacks" [[("chargebacks", "0")]]) ∧
    colSum "chargebacks" [[("chargebacks", "0")]] = 0 ∧
    csvGet (csvComplete ["chargebacks"] [[("chargebacks", "0")]]).data .totalSalesVolume
      = none ∧
    colNotDetectedWarning .totalSalesVolume ∈
      (csvComplete ["chargebacks"] [[("chargebacks", "0")]]).warnings := by
  have hpn : parseNumericF (some "0") = some ⟨false, 0, 0, 0⟩ := by decide
  refine ⟨c1_csv_column_mapping_amended.1 ["chargebacks"] [[("chargebacks", "0")]]
      .tc15Count "chargebacks" (by decide), ?_,
    c1_csv_column_mapping_amended.2.1 ["chargebacks"] [[("chargebacks", "0")]]
      .totalSalesVolume (by decide) (by decide),
    c1_csv_column_mapping_amended.2.2.1 ["chargebacks"] [[("chargebacks", "0")]]
      .totalSalesVolume (by decide)⟩
  simp [colSum, rowGet, List.lookup, parseNumeric, hpn, floatLitQ]

/-! ## Nonnegativity lemmas -/

theorem centsQ_nonneg (c : Nat) : 0 ≤ centsQ c := by
  unfold centsQ
  positivity

theorem centsQ_pos (c : Nat) (h : 0 < c) : 0 < centsQ c := by
  unfold centsQ
  have : (0 : ℚ) < (c : ℚ) := by exact_mod_cast h
  positivity

/-- A nonnegative column stays nonnegative under summation. -/
theorem colSum_nonneg (col : String) (rows : List Row)
    (h : ∀ row ∈ rows, ∀ q, parseNumeric (rowGet row col) = some q → 0 ≤ q) :
    0 ≤ colSum col rows := by
  have aux : ∀ rows : List Row,
      (∀ row ∈ rows, ∀ q, parseNumeric (rowGet row col) = some q → 0 ≤ q) →
      ∀ acc : ℚ, 0 ≤ acc →
      0 ≤ rows.foldl
        (fun sum row =>
          match parseNumeric (rowGet row col) with
          | some v => sum + v
          | none => sum) acc := by
    intro rows
    induction rows with
    | nil => intro _ acc hacc; exact hacc
    | cons row rest ih =>
      intro hr acc hacc
      rw [List.foldl_cons]
      rcases hp : parseNumeric (rowGet row col) with _ | v
      · exact ih (fun r hrr => hr r (List.mem_cons_of_mem _ hrr)) acc hacc
      · exact ih (fun r hrr => hr r (List.mem_cons_of_mem _ hrr)) (acc + v)
          (add_nonneg hacc (hr row (List.mem_cons_self _ _) v hp))
  exact aux rows h 0 le_rfl

/-- The First Data gross-volume block only ever stores positive cents. -/
theorem fdGrossStep_pos (g : Option Nat) (l : String) (n1 n2 : Option String)
    (hg : ∀ c, g = some c → 0 < c) :
    ∀ c, fdGrossStep g l n1 n2 = some c → 0 < c := by
  intro c h
  unfold fdGrossStep at h
  dsimp only at h
  repeat' split at h
  all_goals first
    | exact hg c h
    | simp_all

/-- Over the whole First Data loop the gross volume stays positive. -/
theorem fdGo_gross_pos (lines : List String) (st : FDState)
    (hg : ∀ c, st.grossVolume = some c → 0 < c) :
    ∀ c, (fdGo st lines).grossVolume = some c → 0 < c := by
  induction lines generalizing st with
  | nil => exact hg
  | cons l rest ih =>
    rw [fdGo]
    exact ih _ (fdGrossStep_pos st.grossVolume l rest.head? (rest.drop 1).head? hg)

/-- Block 2 only ever stores positive gross cents. -/
theorem chaseGrossLabelBlock_pos (g : Option Nat) (l : String)
    (n1 : Option String) (hg : ∀ c, g = some c → 0 < c) :
    ∀ c, chaseGrossLabelBlock g l n1 = some c → 0 < c := by
  intro c h
  unfold chaseGrossLabelBlock at h
  dsimp only at h
  repeat' split at h
  all_goals first
    | exact hg c h
    | simp_all

/-- Block 4 only ever stores positive gross cents. -/
theorem chaseSalesRowBlock_gross_pos (g s : Option Nat) (l : String)
    (n1 n2 : Option String) (hg : ∀ c, g = some c → 0 < c) :
    ∀ c, (chaseSalesRowBlock (g, s) l n1 n2).1 = some c → 0 < c := by
  intro c h
  unfold chaseSalesRowBlock at h
  dsimp only at h
  repeat' split at h
  all_goals first
    | exact hg c h
    | simp_all

/-- The Chase gross/sales cluster only ever stores positive gross cents. -/
theorem chaseGSStep_gross_pos (g s : Option Nat) (l : String)
    (n1 n2 : Option String) (hg : ∀ c, g = some c → 0 < c) :
    ∀ c, (chaseGSStep (g, s) l n1 n2).1 = some c → 0 < c := by
  intro c h
  unfold chaseGSStep at h
  dsimp only at h
  exact chaseSalesRowBlock_gross_pos (chaseGrossLabelBlock g l n1) s l n1 n2
    (chaseGrossLabelBlock_pos g l n1 hg) c h

/-- The card-section block never writes the gross volume. -/
theorem chaseCardSectionStep_gross (st : ChaseState) (l : String) :
    (chaseCardSectionStep st l).grossVolume = st.grossVolume := by
  unfold chaseCardSectionStep
  dsimp only
  repeat' split
  all_goals rfl

/-- Over the whole Chase loop the gross volume stays positive. -/
theorem chaseGo_gross_pos (lines : List String) (st : ChaseState)
    (hg : ∀ c, st.grossVolume = some c → 0 < c) :
    ∀ c, (chaseGo st lines).grossVolume = some c → 0 < c := by
  induction lines generalizing st with
  | nil => exact hg
  | cons l rest ih =>
    rw [chaseGo]
    refine ih _ ?_
    intro c h
    unfold chaseStep at h
    dsimp only at h
    split at h
    · exact hg c h
    · split at h
      · exact hg c h
      · rw [chaseCardSectionStep_gross] at h
        exact chaseGSStep_gross_pos st.grossVolume st.salesCount l
          rest.head? (rest.drop 1).head? hg c h

/-- Either extractor's data record carries the loop's gross volume in
dollars. -/
theorem fdResolve_volume (st : FDState) (d : PDFData)
    (h : (fdResolve st).data = some d) :
    d.totalSalesVolume = st.grossVolume.map centsQ := by
  unfold fdResolve at h
  dsimp only at h
  split at h
  · exact (Option.some.injEq _ _ ▸ h : _ = d) ▸ rfl
  · exact absurd h (by simp)

theorem chaseResolve_volume (st : ChaseState) (d : PDFData)
    (h : (chaseResolve st).data = some d) :
    d.totalSalesVolume = st.grossVolume.map centsQ := by
  unfold chaseResolve at h
  dsimp only at h
  split at h
  · exact (Option.some.injEq _ _ ▸ h : _ = d) ▸ rfl
  · exact absurd h (by simp)

/-! ## Claim C9 — resolved values are never negative -/

/-- C9, counterexample: a CSV cell can be negative — `parseNumeric` keeps
the minus sign (only `$`, `,`, `%` and spaces are stripped), so a
`chargebacks` column holding `-5` resolves `tc15Count = Value(-5) < 0`. -/
theorem c9_negative_csv_cell :
    (csvComplete ["chargebacks"] [[("chargebacks", "-5")]]).data.tc15Count
      = some (-5) ∧ ((-5 : ℚ) < 0) := by
  have hpn : parseNumericF (some "-5") = some ⟨true, 5, 0, 0⟩ := by decide
  have hc : colSum "chargebacks" [[("chargebacks", "-5")]] = -5 := by
    simp [colSum, rowGet, List.lookup, parseNumeric, hpn, floatLitQ]
  have hd : detectColumn ["chargebacks"] (COLUMN_ALIASES .tc15Count)
      = some "chargebacks" := by decide
  constructor
  · have h1 : (csvComplete ["chargebacks"] [[("chargebacks", "-5")]]).data.tc15Count
        = csvExtractField ["chargebacks"] [[("chargebacks", "-5")]] .tc15Count :=
      csvComplete_get_of_ne_cnp ["chargebacks"] [[("chargebacks", "-5")]]
        .tc15Count (by decide)
    rw [h1]
    simp only [csvExtractField, hd]
    rw [hc]
  · norm_num

/-- C9, amended: `firstInt` and `firstDollar` can only produce
nonnegative values (their regexes admit no sign), so every PDF-extracted
count is a natural and a resolved gross volume is strictly positive; a
CSV column sum is nonnegative whenever every parsed cell is — but a
negative cell survives `parseNumeric`'s cleaning and can produce a
negative `Value`. -/
theorem c9_nonnegative_amended :
    (∀ line q, firstDollar line = some q → 0 ≤ q) ∧
    (∀ lines d v, (parseFirstDataFields lines).data = some d →
        d.totalSalesVolume = some v → 0 < v) ∧
    (∀ lines d v, (parseChaseFields lines).data = some d →
        d.totalSalesVolume = some v → 0 < v) ∧
    (∀ headers rows f v,
        (∀ row ∈ rows, ∀ col q, parseNumeric (rowGet row col) = some q → 0 ≤ q) →
        csvGet (csvComplete headers rows).data f = some v → 0 ≤ v) := by
  refine ⟨?_, ?_, ?_, ?_⟩
  · intro line q h
    unfold firstDollar at h
    rcases hc : firstDollarC line with _ | c
    · rw [hc] at h; exact absurd h (by simp)
    · rw [hc] at h
      simp only [Option.map_some', Option.some.injEq] at h
      rw [← h]
      exact centsQ_nonneg c
  · intro lines d v h hv
    rw [parseFirstDataFields] at h
    rw [fdResolve_volume _ _ h] at hv
    rcases hg : (fdGo {} lines).grossVolume with _ | c
    · rw [hg] at hv; exact absurd hv (by simp)
    · rw [hg] at hv
      simp only [Option.map_some', Option.some.injEq] at hv
      rw [← hv]
      exact centsQ_pos c (fdGo_gross_pos lines {} (by intro c h; cases h) c hg)
  · intro lines d v h hv
    rw [parseChaseFields] at h
    rw [chaseResolve_volume _ _ h] at hv
    rcases hg : (chaseGo {} lines).grossVolume with _ | c
    · rw [hg] at hv; exact absurd hv (by simp)
    · rw [hg] at hv
      simp only [Option.map_some', Option.some.injEq] at hv
      rw [← hv]
      exact centsQ_pos c (chaseGo_gross_pos lines {} (by intro c h; cases h) c hg)
  · intro headers rows f v hcells hv
    by_cases hf : f = CsvField.cnpTxnCount
    · subst hf
      unfold csvComplete at hv
      dsimp only at hv
      split at hv
      · have : csvGet { csvExtractBase headers rows with
            cnpTxnCount := (csvExtractBase headers rows).totalSalesCount }
            CsvField.cnpTxnCount = (csvExtractBase headers rows).totalSalesCount := rfl
        rw [this] at hv
        have hts := csvExtractBase_get headers rows .totalSalesCount
        simp only [csvGet] at hts
        rw [hts] at hv
        unfold csvExtractField at hv
        split at hv
        · exact absurd hv (by simp)
        · simp only [Option.some.injEq] at hv
          rw [← hv]
          exact colSum_nonneg _ rows (fun row hr q hq => hcells row hr _ q hq)
      · have hcn := csvExtractBase_get headers rows .cnpTxnCount
        simp only [csvGet] at hcn
        have : csvGet (csvExtractBase headers rows) CsvField.cnpTxnCount
            = (csvExtractBase headers rows).cnpTxnCount := rfl
        rw [this, hcn] at hv
        unfold csvExtractField at hv
        split at hv
        · exact absurd hv (by simp)
        · simp only [Option.some.injEq] at hv
          rw [← hv]
          exact colSum_nonneg _ rows (fun row hr q hq => hcells row hr _ q hq)
    · rw [csvComplete_get_of_ne_cnp headers rows f hf] at hv
      unfold csvExtractField at hv
      split at hv
      · exact absurd hv (by simp)
      · simp only [Option.some.injEq] at hv
        rw [← hv]
        exact colSum_nonneg _ rows (fun row hr q hq => hcells row hr _ q hq)

/-- C9, witness: the amended theorem at concrete inputs — a parsed dollar
amount is nonnegative, and a nonnegative CSV sheet yields a nonnegative
`tc15Count`. -/
theorem c9_nonnegative_amended_witness :
    (0 : ℚ) ≤ centsQ 10000 ∧
    ∀ v, csvGet (csvComplete ["chargebacks"] [[("chargebacks", "3")]]).data
        .tc15Count = some v → 0 ≤ v := by
  constructor
  · refine c9_nonnegative_amended.1 "Total Amount Submitted $100.00" (centsQ 10000) ?_
    have hfd : firstDollarC "Total Amount Submitted $100.00" = some 10000 := by decide
    rw [firstDollar, hfd]
    rfl
  · intro v hv
    refine c9_nonnegative_amended.2.2.2 ["chargebacks"] [[("chargebacks", "3")]]
      .tc15Count v ?_ hv
    intro row hrow col q hq
    have hrow' : row = [("chargebacks", "3")] := by
      simpa using hrow
    subst hrow'
    have hp3 : parseNumeric (some "3") = some 3 := by
      have hpn : parseNumericF (some "3") = some ⟨false, 3, 0, 0⟩ := by decide
      simp [parseNumeric, hpn, floatLitQ]
    by_cases hcol : ("chargebacks" : String) = col
    · subst hcol
      simp only [rowGet, List.lookup, beq_self_eq_true, hp3,
        Option.some.injEq] at hq
      rw [← hq]
      norm_num
    · have hbe : (col == "chargebacks") = false := by
        cases hbe : col == "chargebacks"
        · rfl
        · exact absurd (eq_of_beq hbe).symm hcol
      have : rowGet [("chargebacks", "3")] col = none := by
        simp [rowGet, List.lookup, hbe]
      rw [this] at hq
      exact absurd hq (by simp [parseNumeric, parseNumericF])

/-! ## Claim C10 — the generic keyword extractor's inline pass -/

/-- C10: the inline pass (modelled from spec §4.4 — the component has no
implementation under `src/`) resolves `tc15Count = 45` from the single
line `"Chargeback Count: 45"`, and whenever the inline pass matches, the
merged result is the inline value — the adjacent-line pass is never
consulted. -/
theorem c10_inline_pass_first :
    inlinePass TC15_INLINE_LABELS "Chargeback Count: 45" = some (45, 0) ∧
    genericTc15 "Chargeback Count: 45" = some 45 ∧
    (∀ labels text v, inlinePass labels text = some v →
        genericFieldValue labels text = some v) := by
  have hin : inlinePass TC15_INLINE_LABELS "Chargeback Count: 45"
      = some (45, 0) := by decide
  refine ⟨hin, ?_, ?_⟩
  · have hg : genericFieldValue TC15_INLINE_LABELS "Chargeback Count: 45"
        = some (45, 0) := by
      unfold genericFieldValue
      rw [hin]
    rw [genericTc15, hg]
    simp [keywordNumQ]
  · intro labels text v h
    unfold genericFieldValue
    rw [h]

/-- C10, witness: the merge rule applied at the concrete line. -/
theorem c10_inline_pass_first_witness :
    genericFieldValue TC15_INLINE_LABELS "Chargeback Count: 45" = some (45, 0) :=
  c10_inline_pass_first.2.2 TC15_INLINE_LABELS "Chargeback Count: 45" (45, 0)
    (by decide)

/-! ## Claim C7 — the unknown-format dual-extractor race -/

/-- JS truthiness of a cents-derived dollar amount. -/
theorem truthyQ_some_centsQ (c : Nat) :
    truthyQ (some (centsQ c)) = !decide (c = 0) := by
  by_cases hc : c = 0
  · subst hc
    simp [truthyQ, centsQ]
  · have : centsQ c ≠ 0 := by
      unfold centsQ
      exact div_ne_zero (by exact_mod_cast hc) (by norm_num)
    simp [truthyQ, this, hc]

/-- The unknown-format dispatch equation: with the detector undecided,
the engine's result is the better-scoring extractor's (ties to First
Data), and the inferred-format warning is prepended only when that
result has data. -/
theorem pdfUnknownDispatch (lines : List String)
    (hne : lines ≠ [])
    (hdet : detectStatementFormat lines = .unknown) :
    (parsePDFStatement (.ok lines)).data =
      (if countExtracted (parseChaseFields lines) ≤
          countExtracted (parseFirstDataFields lines) then
        parseFirstDataFields lines
      else parseChaseFields lines).data ∧
    (parsePDFStatement (.ok lines)).warnings =
      (if (if countExtracted (parseChaseFields lines) ≤
            countExtracted (parseFirstDataFields lines) then
          parseFirstDataFields lines
        else parseChaseFields lines).data = none then
        (if countExtracted (parseChaseFields lines) ≤
            countExtracted (parseFirstDataFields lines) then
          parseFirstDataFields lines
        else parseChaseFields lines).warnings
      else inferredFormatWarning ::
        (if countExtracted (parseChaseFields lines) ≤
            countExtracted (parseFirstDataFields lines) then
          parseFirstDataFields lines
        else parseChaseFields lines).warnings) := by
  unfold parsePDFStatement
  dsimp only
  rw [if_neg (by simpa using hne), hdet]
  dsimp only
  split
  · split
    · rename_i hr
      have hd : ¬(parseFirstDataFields lines).data = none := by simpa using hr
      exact ⟨rfl, by rw [if_neg hd]⟩
    · rename_i hr
      have hd : (parseFirstDataFields lines).data = none := by simpa using hr
      exact ⟨rfl, by rw [if_pos hd]⟩
  · split
    · rename_i hr
      have hd : ¬(parseChaseFields lines).data = none := by simpa using hr
      exact ⟨rfl, by rw [if_neg hd]⟩
    · rename_i hr
      have hd : (parseChaseFields lines).data = none := by simpa using hr
      exact ⟨rfl, by rw [if_pos hd]⟩

/-- C7, counterexample: on this five-line document the format detector
returns Unknown and the Chase extractor resolves strictly MORE
non-`NotFound` canonical fields (6 > 5, it alone finds the gross volume
and the Visa count), yet the engine keeps the First Data result: the
race's score (`countExtracted`) only counts five components (volume,
sales count, chargeback resolution, Mastercard count, period), ties at
3 = 3, and the tie goes to First Data. -/
theorem c7_race_keeps_lower_canonical_count :
    detectStatementFormat
      ["Gross Sales 100.00", "Card Type Detail", "Visa 70",
       "Interchange Detail", "MC Total 60"] = .unknown ∧
    (parseChaseFields
      ["Gross Sales 100.00", "Card Type Detail", "Visa 70",
       "Interchange Detail", "MC Total 60"]).data.map canonNonNotFound
      = some 6 ∧
    (parseFirstDataFields
      ["Gross Sales 100.00", "Card Type Detail", "Visa 70",
       "Interchange Detail", "MC Total 60"]).data.map canonNonNotFound
      = some 5 ∧
    (parsePDFStatement (.ok
      ["Gross Sales 100.00", "Card Type Detail", "Visa 70",
       "Interchange Detail", "MC Total 60"])).data.map (·.totalSalesCount)
      = some (some 60) ∧
    (parseChaseFields
      ["Gross Sales 100.00", "Card Type Detail", "Visa 70",
       "Interchange Detail", "MC Total 60"]).data.map (·.totalSalesCount)
      = some (some 70) := by
  have hst : chaseGo {}
      ["Gross Sales 100.00", "Card Type Detail", "Visa 70",
       "Interchange Detail", "MC Total 60"] =
      { grossVolume := some 10000, salesCount := none,
        chargebackCount := none, statementPeriod := none,
        mcCardSum := 0, visaCardSum := 70, mcCardFound := false,
        visaCardFound := true, inCardSection := false,
        inSummarySection := false, cbSectionFound := false,
        cardSectionTotal := 70 } := by decide
  have hcc : countExtracted (parseChaseFields
      ["Gross Sales 100.00", "Card Type Detail", "Visa 70",
       "Interchange Detail", "MC Total 60"]) = 3 := by
    rw [parseChaseFields, hst]
    simp [chaseResolve, chaseSalesResolve, chaseCbResolve, countExtracted,
      truthyQ_some_centsQ, truthyN, truthyS]
  have hcf : countExtracted (parseFirstDataFields
      ["Gross Sales 100.00", "Card Type Detail", "Visa 70",
       "Interchange Detail", "MC Total 60"]) = 3 := by decide
  refine ⟨by decide, ?_, by decide, ?_, by decide⟩
  · rw [parseChaseFields, hst]
    simp [chaseResolve, chaseSalesResolve, chaseCbResolve, canonNonNotFound]
  · rw [(pdfUnknownDispatch
      ["Gross Sales 100.00", "Card Type Detail", "Visa 70",
       "Interchange Detail", "MC Total 60"] (by decide) (by decide)).1,
      hcc, hcf, if_pos (le_refl 3)]
    decide

/-- C7, amended: when the detector returns Unknown the engine runs both
dialect extractors and keeps the one with the larger `countExtracted`
score — a five-component score (truthy volume, sales count, chargeback
resolution, Mastercard count, period), not the count of non-`NotFound`
canonical fields — with ties going to First Data, and it prepends the
inferred-format warning only when the kept result actually has data. -/
theorem c7_unknown_race_amended (lines : List String)
    (hne : lines ≠ [])
    (hdet : detectStatementFormat lines = .unknown) :
    (parsePDFStatement (.ok lines)).data =
      (if countExtracted (parseChaseFields lines) ≤
          countExtracted (parseFirstDataFields lines) then
        parseFirstDataFields lines
      else parseChaseFields lines).data ∧
    (parsePDFStatement (.ok lines)).warnings =
      (if (if countExtracted (parseChaseFields lines) ≤
            countExtracted (parseFirstDataFields lines) then
          parseFirstDataFields lines
        else parseChaseFields lines).data = none then
        (if countExtracted (parseChaseFields lines) ≤
            countExtracted (parseFirstDataFields lines) then
          parseFirstDataFields lines
        else parseChaseFields lines).warnings
      else inferredFormatWarning ::
        (if countExtracted (parseChaseFields lines) ≤
            countExtracted (parseFirstDataFields lines) then
          parseFirstDataFields lines
        else parseChaseFields lines).warnings) :=
  pdfUnknownDispatch lines hne hdet

/-- C7, witness: the amended dispatch equation at a concrete unknown-
format document. -/
theorem c7_unknown_race_amended_witness :
    (parsePDFStatement (.ok ["hello"])).data =
      (if countExtracted (parseChaseFields ["hello"]) ≤
          countExtracted (parseFirstDataFields ["hello"]) then
        parseFirstDataFields ["hello"]
      else parseChaseFields ["hello"]).data :=
  (c7_unknown_race_amended ["hello"] (by decide) (by decide)).1

/-! ## Claim C8 — per-file isolation of the batch aggregator -/

/-- The January file of the concrete batch settles to a successful entry
(500 transactions, CNP proxy, ratio 0, six warnings). -/
theorem batchSettleJan : settleFile 2026 batchFileJan =
    .success "statement_jan_2026.csv" "Jan 2026" (some 2026) (some 0) false
      ⟨500, 0, 500, none, none, 0, 0, 0, none⟩ (some 0) batchCsvWarnings := by
  have hext : fileExt "statement_jan_2026.csv" = "csv" := by decide
  have hpn : parseNumericF (some "500") = some ⟨false, 500, 0, 0⟩ := by decide
  have hc : colSum "total_transactions" [[("total_transactions", "500")]] = 500 := by
    simp [colSum, rowGet, List.lookup, parseNumeric, hpn, floatLitQ]
  have hd1 : detectColumn ["total_transactions"] (COLUMN_ALIASES .totalSalesCount)
      = some "total_transactions" := by decide
  have hd2 : detectColumn ["total_transactions"] (COLUMN_ALIASES .totalSalesVolume)
      = none := by decide
  have hd3 : detectColumn ["total_transactions"] (COLUMN_ALIASES .cnpTxnCount)
      = none := by decide
  have hd4 : detectColumn ["total_transactions"] (COLUMN_ALIASES .tc15Count)
      = none := by decide
  have hd5 : detectColumn ["total_transactions"] (COLUMN_ALIASES .tc40Count)
      = none := by decide
  have hd6 : detectColumn ["total_transactions"] (COLUMN_ALIASES .fraudAmountUSD)
      = none := by decide
  have hdata : (csvComplete ["total_transactions"] [[("total_transactions", "500")]]).data
      = ⟨some 500, none, some 500, none, none, none⟩ := by
    simp [csvComplete, csvExtractBase, csvExtractField, hd1, hd2, hd3, hd4, hd5,
      hd6, hc]
  have hwarn : (csvComplete ["total_transactions"] [[("total_transactions", "500")]]).warnings
      = batchCsvWarnings := by
    simp [csvComplete, csvExtractBase, csvExtractField, csvBaseWarnings,
      csvFieldOrder, hd1, hd2, hd3, hd4, hd5, hd6, hc, batchCsvWarnings]
  have hmi : detectMonthFromFilename 2026 "statement_jan_2026.csv"
      = some ⟨2026, 0, "Jan 2026"⟩ := by decide
  unfold settleFile
  simp only [batchFileJan, parseStatement, hext, parseCSVStatement]
  norm_num
  simp only [hdata, hwarn, hmi, csvToUData, calculateMonthlyVAMP]
  norm_num

/-- The March file settles analogously (600 transactions). -/
theorem batchSettleMar : settleFile 2026 batchFileMar =
    .success "statement_mar_2026.csv" "Mar 2026" (some 2026) (some 2) false
      ⟨600, 0, 600, none, none, 0, 0, 0, none⟩ (some 0) batchCsvWarnings := by
  have hext : fileExt "statement_mar_2026.csv" = "csv" := by decide
  have hpn : parseNumericF (some "600") = some ⟨false, 600, 0, 0⟩ := by decide
  have hc : colSum "total_transactions" [[("total_transactions", "600")]] = 600 := by
    simp [colSum, rowGet, List.lookup, parseNumeric, hpn, floatLitQ]
  have hd1 : detectColumn ["total_transactions"] (COLUMN_ALIASES .totalSalesCount)
      = some "total_transactions" := by decide
  have hd2 : detectColumn ["total_transactions"] (COLUMN_ALIASES .totalSalesVolume)
      = none := by decide
  have hd3 : detectColumn ["total_transactions"] (COLUMN_ALIASES .cnpTxnCount)
      = none := by decide
  have hd4 : detectColumn ["total_transactions"] (COLUMN_ALIASES .tc15Count)
      = none := by decide
  have hd5 : detectColumn ["total_transactions"] (COLUMN_ALIASES .tc40Count)
      = none := by decide
  have hd6 : detectColumn ["total_transactions"] (COLUMN_ALIASES .fraudAmountUSD)
      = none := by decide
  have hdata : (csvComplete ["total_transactions"] [[("total_transactions", "600")]]).data
      = ⟨some 600, none, some 600, none, none, none⟩ := by
    simp [csvComplete, csvExtractBase, csvExtractField, hd1, hd2, hd3, hd4, hd5,
      hd6, hc]
  have hwarn : (csvComplete ["total_transactions"] [[("total_transactions", "600")]]).warnings
      = batchCsvWarnings := by
    simp [csvComplete, csvExtractBase, csvExtractField, csvBaseWarnings,
      csvFieldOrder, hd1, hd2, hd3, hd4, hd5, hd6, hc, batchCsvWarnings]
  have hmi : detectMonthFromFilename 2026 "statement_mar_2026.csv"
      = some ⟨2026, 2, "Mar 2026"⟩ := by decide
  unfold settleFile
  simp only [batchFileMar, parseStatement, hext, parseCSVStatement]
  norm_num
  simp only [hdata, hwarn, hmi, csvToUData, calculateMonthlyVAMP]
  norm_num

/-- The corrupt file settles to a `{error}`-only entry. -/
theorem batchSettleCorrupt : settleFile 2026 batchFileCorrupt =
    .failed "CSV parse error: Too few fields" := by decide

/-- C8: `parseStatements` returns exactly one entry per input file and is
a total function (never a thrown batch error); each entry depends only on
its own file, so a corrupt file yields a `{error}` entry while every
other file's entry is unaffected — concretely, a 3-file batch whose
second file is corrupt yields 3 entries, files 1 and 3 fully extracted
and sorted chronologically, the failed entry (no derivable period)
sorting last. -/
theorem c8_batch_per_file_isolation :
    (∀ currentYear files,
        (parseStatements currentYear files).length = files.length) ∧
    (∀ currentYear files,
        (parseStatements currentYear files).Perm
          (files.map (settleFile currentYear))) ∧
    parseStatements 2026 [batchFileJan, batchFileCorrupt, batchFileMar] =
      [.success "statement_jan_2026.csv" "Jan 2026" (some 2026) (some 0) false
        ⟨500, 0, 500, none, none, 0, 0, 0, none⟩ (some 0) batchCsvWarnings,
       .success "statement_mar_2026.csv" "Mar 2026" (some 2026) (some 2) false
        ⟨600, 0, 600, none, none, 0, 0, 0, none⟩ (some 0) batchCsvWarnings,
       .failed "CSV parse error: Too few fields"] := by
  refine ⟨?_, ?_, ?_⟩
  · intro currentYear files
    rw [parseStatements, List.length_insertionSort, List.length_map]
  · intro currentYear files
    exact List.perm_insertionSort _ _
  · rw [parseStatements]
    simp only [List.map, batchSettleJan, batchSettleMar, batchSettleCorrupt]
    simp [List.insertionSort, List.orderedInsert, entryLE,
      BatchEntry.year?, BatchEntry.monthIndex?]

end VAMP
